import Mathlib

/-!
# ctsTraffic: the socket session object (`ctsSocket`)

A shallow embedding of `src/ctsTraffic/ctsSocket.cpp`.

* The member variables of `ctsSocket` are the fields of the structure `ctsSocket`.
* Every member function is a Lean function from the object's state to a `Step`:
  the state the call leaves behind, the calls it made on its collaborators
  (`Event`s, in program order) and how the call ended (`Outcome`).
* `ctFatalCondition` terminates the process; a call that ends that way has the
  outcome `Outcome.fatal`, and its `Step` carries the state and the events at the
  moment of termination.
* A C++ exception leaving the call is `Outcome.threw`; whether a resource
  acquisition succeeds is an input of the call (a `Bool` supplied by the
  environment).
-/

namespace ctsTraffic

/-! ## Platform types -/

/-- Winsock `SOCKET` is an unsigned pointer-sized integer (x64). -/
abbrev SOCKET := Nat

/-- Winsock `INVALID_SOCKET` is `(SOCKET)(~0)`. -/
def INVALID_SOCKET : SOCKET := 2 ^ 64 - 1

/-- Win32 `DWORD`; error codes are only stored and passed on, never computed with. -/
abbrev DWORD := Nat

/-- Two's complement wrap-around of a 32-bit `long` (LLP64). -/
def wrapLong (x : Int) : Int := (x + 2147483648) % 4294967296 - 2147483648

/-- Modelled from the spec: `ctl::ctMemoryGuardIncrement` (ctLocks.hpp is not among the
sources): the atomic increment of a signed `long`, returning the new value. -/
def ctMemoryGuardIncrement (value : Int) : Int := wrapLong (value + 1)

/-- Modelled from the spec: `ctl::ctMemoryGuardDecrement` (ctLocks.hpp is not among the
sources): the atomic decrement of a signed `long`, returning the new value. -/
def ctMemoryGuardDecrement (value : Int) : Int := wrapLong (value - 1)

/-- Modelled from the spec: `ctl::ctMemoryGuardRead` (ctLocks.hpp is not among the
sources): the atomic read of a signed `long`. -/
def ctMemoryGuardRead (value : Int) : Int := value

/-! ## Collaborators -/

/-- Identifies a callable (`std::function`) handed to the session or to a pattern. -/
abbrev Callback := Nat

/-- The one field of `ctsIOTask` that `ctsSocket.cpp` reads. -/
structure ctsIOTask where
  time_offset_milliseconds : Int
  deriving DecidableEq, Repr

/-- Modelled from the spec: `ctsIOPattern` (its header is not among the sources): the
pattern records a last error and holds the completion callback that is registered, if
any. -/
structure ctsIOPattern where
  last_error : DWORD
  callback : Option Callback
  deriving DecidableEq, Repr

/-- Modelled from the spec: `ctsIOPattern::get_last_error` returns the error the pattern
recorded. -/
def ctsIOPattern.get_last_error (p : ctsIOPattern) : DWORD := p.last_error

/-- Modelled from the spec: `ctsIOPattern::register_callback` replaces the completion
callback; passing none disables further notifications. -/
def ctsIOPattern.register_callback (p : ctsIOPattern) (cb : Option Callback) : ctsIOPattern :=
  { p with callback := cb }

/-- Modelled from the spec: `ctl::ctThreadIocp` (its header is not among the sources): the
completion adapter is bound to one native handle at construction and is never mutated. -/
structure ctThreadIocp where
  socket : SOCKET
  deriving DecidableEq, Repr

/-- Modelled from the spec: the constructor of `ctl::ctThreadIocp` fails when the handle
is invalid or when the platform call fails (`platform_ok = false`). -/
def ctThreadIocp.construct (s : SOCKET) (platform_ok : Bool) : Option ctThreadIocp :=
  if s = INVALID_SOCKET ∨ platform_ok = false then none else some { socket := s }

/-- Modelled from the spec: `ctl::ctThreadpoolTimer` (its header is not among the
sources): the timer object holds the closures scheduled on it, each with its delay. -/
structure ctThreadpoolTimer where
  scheduled : List (Callback × ctsIOTask × Int)
  deriving DecidableEq, Repr

/-- Modelled from the spec: the constructor of `ctl::ctThreadpoolTimer` fails under
resource exhaustion (`platform_ok = false`). -/
def ctThreadpoolTimer.construct (platform_ok : Bool) : Option ctThreadpoolTimer :=
  if platform_ok then some { scheduled := [] } else none

/-- Modelled from the spec: `ctThreadpoolTimer::schedule_singleton` fails when the
scheduling primitive cannot accept new work, and otherwise records the closure. -/
def ctThreadpoolTimer.schedule_singleton (t : ctThreadpoolTimer) (func : Callback)
    (task : ctsIOTask) (delay : Int) (platform_ok : Bool) : Option ctThreadpoolTimer :=
  if platform_ok then some { scheduled := t.scheduled ++ [(func, task, delay)] } else none

/-- The parent state machine, known to the session only by reference. -/
structure ctsSocketState where
  id : Nat
  deriving DecidableEq, Repr

/-- A `std::weak_ptr`: what `lock()` yields, nothing once the target is gone. -/
structure weak_ptr (α : Type) where
  target : Option α
  deriving DecidableEq, Repr

/-- The `std::weak_ptr::lock` call. -/
def weak_ptr.lock {α : Type} (w : weak_ptr α) : Option α := w.target

/-! ## The session object -/

/-- The member variables of `ctsSocket` (the critical section `socket_cs` is visible
through the `Event`s of the calls that enter and leave it; the two addresses are never
read by the functions below). -/
structure ctsSocket where
  socket : SOCKET
  io_count : Int
  parent : weak_ptr ctsSocketState
  pattern : Option ctsIOPattern
  tp_iocp : Option ctThreadIocp
  tp_timer : Option ctThreadpoolTimer
  deriving DecidableEq, Repr

/-- Calls a member function makes on the platform and on its collaborators. -/
inductive Event where
  | EnterCriticalSection
  | LeaveCriticalSection
  | closesocket (s : SOCKET)
  | make_ctThreadIocp (s : SOCKET)
  | make_ctThreadpoolTimer
  | schedule_singleton (func : Callback) (task : ctsIOTask) (delay : Int)
  | register_callback (cb : Option Callback)
  | parent_complete_state (parent : ctsSocketState) (error : DWORD)
  | tp_iocp_reset (held : Option ctThreadIocp)
  | tp_timer_reset (held : Option ctThreadpoolTimer)
  deriving DecidableEq, Repr

/-- How a call ended. -/
inductive Outcome (α : Type) where
  | returned (value : α)
  | threw
  | fatal
  deriving DecidableEq, Repr

/-- One call of a member function. -/
structure Step (α : Type) where
  state : ctsSocket
  events : List Event
  outcome : Outcome α
  deriving DecidableEq, Repr

/-- Modelled from the spec: `ctl::ctFatalCondition` (ctException.hpp is not among the
sources): an invariant violation terminates the process immediately; the call returns only
when the condition is false. -/
def ctFatalCondition (condition : Prop) [Decidable condition] : Outcome Unit :=
  if condition then Outcome.fatal else Outcome.returned ()

/-- The member initialisers of the constructor `ctsSocket::ctsSocket`. -/
def ctsSocket.fresh (_parent : weak_ptr ctsSocketState) : ctsSocket :=
  { socket := INVALID_SOCKET
    io_count := 0
    parent := _parent
    pattern := none
    tp_iocp := none
    tp_timer := none }

/-- The constructor `ctsSocket::ctsSocket`: it throws when the critical section cannot be
initialised. -/
def ctsSocket.construct (_parent : weak_ptr ctsSocketState) (cs_ok : Bool) : Option ctsSocket :=
  if cs_ok then some (ctsSocket.fresh _parent) else none

/-- The member function `ctsSocket::set_socket`. -/
def ctsSocket.set_socket (self : ctsSocket) (_socket : SOCKET) : Step Unit :=
  match ctFatalCondition (self.socket ≠ INVALID_SOCKET) with
  | Outcome.returned () =>
    { state := { self with socket := _socket }
      events := [Event.EnterCriticalSection, Event.LeaveCriticalSection]
      outcome := Outcome.returned () }
  | _ =>
    { state := self
      events := [Event.EnterCriticalSection]
      outcome := Outcome.fatal }

/-- The member function `ctsSocket::close_socket`. -/
def ctsSocket.close_socket (self : ctsSocket) : Step Unit :=
  if self.socket ≠ INVALID_SOCKET then
    { state := { self with socket := INVALID_SOCKET }
      events := [Event.EnterCriticalSection, Event.closesocket self.socket,
        Event.LeaveCriticalSection]
      outcome := Outcome.returned () }
  else
    { state := self
      events := [Event.EnterCriticalSection, Event.LeaveCriticalSection]
      outcome := Outcome.returned () }

/-- The member function `ctsSocket::thread_pool`; `platform_ok` tells whether the
construction of the adapter, when it is attempted, succeeds. -/
def ctsSocket.thread_pool (self : ctsSocket) (platform_ok : Bool) :
    Step (Option ctThreadIocp) :=
  if self.socket ≠ INVALID_SOCKET ∧ self.tp_iocp = none then
    match ctThreadIocp.construct self.socket platform_ok with
    | some iocp =>
      { state := { self with tp_iocp := some iocp }
        events := [Event.EnterCriticalSection, Event.make_ctThreadIocp self.socket,
          Event.LeaveCriticalSection]
        outcome := Outcome.returned (some iocp) }
    | none =>
      { state := self
        events := [Event.EnterCriticalSection, Event.LeaveCriticalSection]
        outcome := Outcome.threw }
  else
    { state := self
      events := [Event.EnterCriticalSection, Event.LeaveCriticalSection]
      outcome := Outcome.returned self.tp_iocp }

/-- The member function `ctsSocket::complete_state`. -/
def ctsSocket.complete_state (self : ctsSocket) (_error_code : DWORD) : Step Unit :=
  let current_io_count := ctMemoryGuardRead self.io_count
  match ctFatalCondition (current_io_count ≠ 0) with
  | Outcome.returned () =>
    let recorded_error : DWORD :=
      match self.pattern with
      | some p => p.get_last_error
      | none => _error_code
    let pattern_after : Option ctsIOPattern :=
      match self.pattern with
      | some p => some (p.register_callback none)
      | none => none
    let pattern_events : List Event :=
      match self.pattern with
      | some _ => [Event.register_callback none]
      | none => []
    match self.parent.lock with
    | some ref_parent =>
      { state := { self with pattern := pattern_after }
        events := pattern_events ++ [Event.parent_complete_state ref_parent recorded_error]
        outcome := Outcome.returned () }
    | none =>
      { state := { self with pattern := pattern_after }
        events := pattern_events
        outcome := Outcome.returned () }
  | _ =>
    { state := self
      events := []
      outcome := Outcome.fatal }

/-- The member function `ctsSocket::io_pattern`. -/
def ctsSocket.io_pattern (self : ctsSocket) : Step (Option ctsIOPattern) :=
  { state := self, events := [], outcome := Outcome.returned self.pattern }

/-- The member function `ctsSocket::set_io_pattern`. -/
def ctsSocket.set_io_pattern (self : ctsSocket) (_pattern : Option ctsIOPattern) : Step Unit :=
  { state := { self with pattern := _pattern }, events := [], outcome := Outcome.returned () }

/-- The member function `ctsSocket::increment_io`. -/
def ctsSocket.increment_io (self : ctsSocket) : Step Int :=
  { state := { self with io_count := ctMemoryGuardIncrement self.io_count }
    events := []
    outcome := Outcome.returned (ctMemoryGuardIncrement self.io_count) }

/-- The member function `ctsSocket::decrement_io`: the counter is decremented first, the
new value is checked afterwards. -/
def ctsSocket.decrement_io (self : ctsSocket) : Step Int :=
  let io_value := ctMemoryGuardDecrement self.io_count
  match ctFatalCondition (io_value < 0) with
  | Outcome.returned () =>
    { state := { self with io_count := io_value }
      events := []
      outcome := Outcome.returned io_value }
  | _ =>
    { state := { self with io_count := io_value }
      events := []
      outcome := Outcome.fatal }

/-- The member function `ctsSocket::pended_io`. -/
def ctsSocket.pended_io (self : ctsSocket) : Step Int :=
  { state := self, events := [], outcome := Outcome.returned (ctMemoryGuardRead self.io_count) }

/-- The member function `ctsSocket::shutdown`: `close_socket()`, then the two `reset()`
calls, which run after `close_socket` has returned. -/
def ctsSocket.shutdown (self : ctsSocket) : Step Unit :=
  let closed := self.close_socket
  { state := { closed.state with tp_iocp := none, tp_timer := none }
    events := closed.events ++
      [Event.tp_iocp_reset closed.state.tp_iocp, Event.tp_timer_reset closed.state.tp_timer]
    outcome := Outcome.returned () }

/-- The member function `ctsSocket::set_timer`; `create_ok` tells whether the construction
of the timer, when it is attempted, succeeds, and `schedule_ok` whether
`schedule_singleton` does. -/
def ctsSocket.set_timer (self : ctsSocket) (_task : ctsIOTask) (_func : Callback)
    (create_ok schedule_ok : Bool) : Step Unit :=
  let created : Option (ctThreadpoolTimer × List Event) :=
    match self.tp_timer with
    | some t => some (t, [])
    | none =>
      match ctThreadpoolTimer.construct create_ok with
      | some t => some (t, [Event.make_ctThreadpoolTimer])
      | none => none
  match created with
  | none =>
    { state := self
      events := [Event.EnterCriticalSection, Event.LeaveCriticalSection]
      outcome := Outcome.threw }
  | some (t, created_events) =>
    match t.schedule_singleton _func _task _task.time_offset_milliseconds schedule_ok with
    | some t2 =>
      { state := { self with tp_timer := some t2 }
        events := [Event.EnterCriticalSection] ++ created_events ++
          [Event.schedule_singleton _func _task _task.time_offset_milliseconds,
            Event.LeaveCriticalSection]
        outcome := Outcome.returned () }
    | none =>
      { state := { self with tp_timer := some t }
        events := [Event.EnterCriticalSection] ++ created_events ++
          [Event.LeaveCriticalSection]
        outcome := Outcome.threw }

/-! ## Sequences of calls -/

/-- What a call hands back to its caller. -/
inductive Ret where
  | unit
  | long (value : Int)
  | iocp (p : Option ctThreadIocp)
  | io_pattern (p : Option ctsIOPattern)
  deriving DecidableEq, Repr

/-- One call on the session, with the inputs the environment supplies to it. -/
inductive Op where
  | set_socket (s : SOCKET)
  | close_socket
  | thread_pool (platform_ok : Bool)
  | complete_state (error_code : DWORD)
  | io_pattern
  | set_io_pattern (p : Option ctsIOPattern)
  | increment_io
  | decrement_io
  | pended_io
  | shutdown
  | set_timer (task : ctsIOTask) (func : Callback) (create_ok schedule_ok : Bool)
  deriving DecidableEq, Repr

/-- Forget the type of the value a call returned. -/
def Step.erase {α : Type} (r : Step α) (f : α → Ret) : Step Ret :=
  { state := r.state
    events := r.events
    outcome :=
      match r.outcome with
      | Outcome.returned v => Outcome.returned (f v)
      | Outcome.threw => Outcome.threw
      | Outcome.fatal => Outcome.fatal }

/-- Run one call. -/
def step (op : Op) (self : ctsSocket) : Step Ret :=
  match op with
  | Op.set_socket s => (self.set_socket s).erase (fun _ => Ret.unit)
  | Op.close_socket => self.close_socket.erase (fun _ => Ret.unit)
  | Op.thread_pool ok => (self.thread_pool ok).erase Ret.iocp
  | Op.complete_state e => (self.complete_state e).erase (fun _ => Ret.unit)
  | Op.io_pattern => self.io_pattern.erase Ret.io_pattern
  | Op.set_io_pattern p => (self.set_io_pattern p).erase (fun _ => Ret.unit)
  | Op.increment_io => self.increment_io.erase Ret.long
  | Op.decrement_io => self.decrement_io.erase Ret.long
  | Op.pended_io => self.pended_io.erase Ret.long
  | Op.shutdown => self.shutdown.erase (fun _ => Ret.unit)
  | Op.set_timer task func c k => (self.set_timer task func c k).erase (fun _ => Ret.unit)

/-- Run the calls one after the other. A call that ends in the fatal path ends the
process, so nothing runs after it; an exception goes to the caller, who may go on. The
result lists the calls that ran, in order. -/
def run : List Op → ctsSocket → List (Step Ret)
  | [], _ => []
  | op :: ops, self =>
    let r := step op self
    match r.outcome with
    | Outcome.fatal => [r]
    | _ => r :: run ops r.state

/-- Whether some call of the run ended in the fatal path. -/
def hasFatal (tr : List (Step Ret)) : Bool :=
  tr.any (fun r => decide (r.outcome = Outcome.fatal))

/-- All events of a run, in program order. -/
def allEvents (tr : List (Step Ret)) : List Event :=
  (tr.map (fun r => r.events)).flatten

/-- The state after the last call of a run that started in `self`. -/
def finalState : ctsSocket → List (Step Ret) → ctsSocket
  | self, [] => self
  | _, r :: tr => finalState r.state tr

/-- The number of `closesocket` calls among the events. -/
def closeCount (evs : List Event) : Nat :=
  evs.countP (fun e => match e with | Event.closesocket _ => true | _ => false)

/-- The number of terminal notifications delivered to the parent among the events. -/
def notifyCount (evs : List Event) : Nat :=
  evs.countP (fun e => match e with | Event.parent_complete_state _ _ => true | _ => false)

/-- The number of timer objects created among the events. -/
def timerCreateCount (evs : List Event) : Nat :=
  evs.countP (fun e => match e with | Event.make_ctThreadpoolTimer => true | _ => false)

/-- The number of completion adapters created among the events. -/
def iocpCreateCount (evs : List Event) : Nat :=
  evs.countP (fun e => match e with | Event.make_ctThreadIocp _ => true | _ => false)

/-- The number of calls of one kind in a sequence. -/
def opCount (p : Op → Bool) (ops : List Op) : Nat := ops.countP p

/-- Is the call a `complete_state`. -/
def Op.isCompleteState : Op → Bool
  | Op.complete_state _ => true
  | _ => false

/-- Is the call a `shutdown`. -/
def Op.isShutdown : Op → Bool
  | Op.shutdown => true
  | _ => false

/-- Is the call an `increment_io` or a `decrement_io`. -/
def Op.isCount : Op → Bool
  | Op.increment_io => true
  | Op.decrement_io => true
  | _ => false

/-- Is the call a `set_socket`, a `close_socket` or a `shutdown`. -/
def Op.isHandleOp : Op → Bool
  | Op.set_socket _ => true
  | Op.close_socket => true
  | Op.shutdown => true
  | _ => false

/-- Is the call a `set_timer` or a `shutdown`. -/
def Op.isTimerOp : Op → Bool
  | Op.set_timer _ _ _ _ => true
  | Op.shutdown => true
  | _ => false

/-- Increments minus decrements in a sequence of calls. -/
def balance : List Op → Int
  | [] => 0
  | Op.increment_io :: ops => balance ops + 1
  | Op.decrement_io :: ops => balance ops - 1
  | _ :: ops => balance ops

/-- The number of times the handle goes from `INVALID_SOCKET` to a valid value along a
list of successive states. -/
def validTransitions : List ctsSocket → Nat
  | a :: b :: rest =>
    (if a.socket = INVALID_SOCKET ∧ b.socket ≠ INVALID_SOCKET then 1 else 0) +
      validTransitions (b :: rest)
  | _ => 0

/-- The states a run goes through, the starting state first. -/
def statesOf (self : ctsSocket) (tr : List (Step Ret)) : List ctsSocket :=
  self :: tr.map (fun r => r.state)

/-- How many times the critical section is held by the calling thread after the events,
counting only what the events themselves entered and left. -/
def lockDepth : List Event → Int
  | [] => 0
  | Event.EnterCriticalSection :: evs => lockDepth evs + 1
  | Event.LeaveCriticalSection :: evs => lockDepth evs - 1
  | _ :: evs => lockDepth evs

/-- Is the event the release of the completion adapter or of the timer. -/
def Event.isRelease : Event → Bool
  | Event.tp_iocp_reset _ => true
  | Event.tp_timer_reset _ => true
  | _ => false

/-- Is the event a `closesocket`. -/
def Event.isClose : Event → Bool
  | Event.closesocket _ => true
  | _ => false

/-- A session whose parent is alive. -/
def liveParent : weak_ptr ctsSocketState := { target := some { id := 0 } }

/-- A session that holds the valid handle 5 and has a live parent. -/
def sessionWithHandle : ctsSocket :=
  { ctsSocket.fresh liveParent with socket := 5 }

/-- A pattern whose last recorded error is 10054 (connection reset). -/
def resetPattern : ctsIOPattern := { last_error := 10054, callback := some 1 }

/-- A session with a live parent and the pattern `resetPattern` attached. -/
def sessionWithPattern : ctsSocket :=
  { ctsSocket.fresh liveParent with pattern := some resetPattern }

/-- A session with a live parent and a pattern that recorded no error. -/
def sessionWithCleanPattern : ctsSocket :=
  { ctsSocket.fresh liveParent with pattern := some { last_error := 0, callback := none } }

/-- A session with three operations pending. -/
def sessionWithPending : ctsSocket :=
  { sessionWithPattern with io_count := 3 }

/-- The two back-to-back completions of C4. -/
def twoCompletions : List Op := [Op.complete_state 0, Op.complete_state 0]

/-- Two operations issued, one completed. -/
def threeCalls : List Op := [Op.increment_io, Op.increment_io, Op.decrement_io]

/-- A handle is attached, the adapter is created, the handle is closed. -/
def attachUseClose : List Op := [Op.set_socket 5, Op.thread_pool true, Op.close_socket]

/-- The session after `attachUseClose`. -/
def sessionClosedWithAdapter : ctsSocket :=
  finalState (ctsSocket.fresh liveParent) (run attachUseClose (ctsSocket.fresh liveParent))

/-- One when the session holds a valid handle, zero otherwise. -/
def validBit (self : ctsSocket) : Nat := if self.socket ≠ INVALID_SOCKET then 1 else 0

/-- One when the handle is invalid in `a` and valid in `b`, zero otherwise. -/
def becomesValid (a b : ctsSocket) : Nat :=
  if a.socket = INVALID_SOCKET ∧ b.socket ≠ INVALID_SOCKET then 1 else 0

/-- A handle is attached, closed, and another handle is attached. -/
def attachCloseAttach : List Op := [Op.set_socket 5, Op.close_socket, Op.set_socket 7]

/-- One when the session stores no timer, zero otherwise. -/
def timerAbsent (self : ctsSocket) : Nat := if self.tp_timer = none then 1 else 0

/-- A task with no delay. -/
def noDelayTask : ctsIOTask := { time_offset_milliseconds := 0 }

/-- A timer is scheduled, the session is shut down, a timer is scheduled again. -/
def scheduleShutdownSchedule : List Op :=
  [Op.set_timer noDelayTask 1 true true, Op.shutdown, Op.set_timer noDelayTask 1 true true]

/-- A session that stores a timer with nothing scheduled on it. -/
def sessionWithTimer : ctsSocket :=
  { ctsSocket.fresh liveParent with tp_timer := some { scheduled := [] } }

end ctsTraffic

/-!
# ctsPerf: the statistics writer (`ctsWriteDetails`)

A shallow embedding of `ctsWriteDetails::write_details` and of `ctsPerf::details::write`
from `src/ctsPerf/ctsWriteDetails.h`, for samples of type `ULONGLONG`.

* The vector is a list; the call returns the vector as it leaves it.
* What the call puts into the file is a list of `FileEvent`s, in program order.
* The statistics functions of ctMath.hpp and the `%f` conversion work on `double`; they
  are parameters (`D` stands for `double`).
-/

namespace ctsPerf

/-- Win32 `ULONG` and `DWORD`: 32 bits, unsigned. -/
abbrev ULONG := Nat

/-- Win32 `ULONGLONG`: 64 bits, unsigned. -/
abbrev ULONGLONG := Nat

/-- The conversion `static_cast<DWORD>` of a `size_t`. -/
def static_cast_DWORD (value : Nat) : ULONG := value % 4294967296

/-- Modelled from the spec: the conversions `%lu` and `%llu` of
`ctl::ctString::format_string` (ctString.hpp is not among the sources) print an unsigned
integer in decimal. -/
def format_unsigned (value : Nat) : String := toString value

/-- The overload `details::write(ULONGLONG)`. -/
def details.write_ULONGLONG (_first_value : ULONGLONG) : String :=
  "," ++ format_unsigned _first_value

/-- The overload `details::write(ULONG)`. -/
def details.write_ULONG (_first_value : ULONG) : String :=
  "," ++ format_unsigned _first_value

/-- The overload `details::write(double)`; `format_f` is the conversion `%f`. -/
def details.write_double {D : Type} (format_f : D → String) (_first_value : D) : String :=
  "," ++ format_f _first_value

/-- The overload `details::write(ULONGLONG, ULONGLONG)`. -/
def details.write_ULONGLONG_2 (_first_value _second_value : ULONGLONG) : String :=
  "," ++ format_unsigned _first_value ++ "," ++ format_unsigned _second_value

/-- The overload `details::write(ULONG, ULONG)`. -/
def details.write_ULONG_2 (_first_value _second_value : ULONG) : String :=
  "," ++ format_unsigned _first_value ++ "," ++ format_unsigned _second_value

/-- The overload `details::write(double, double)`. -/
def details.write_double_2 {D : Type} (format_f : D → String)
    (_first_value _second_value : D) : String :=
  "," ++ format_f _first_value ++ "," ++ format_f _second_value

/-- The overload `details::write(ULONGLONG, ULONGLONG, ULONGLONG)`. -/
def details.write_ULONGLONG_3 (_first_value _second_value _third_value : ULONGLONG) :
    String :=
  "," ++ format_unsigned _first_value ++ "," ++ format_unsigned _second_value ++ "," ++
    format_unsigned _third_value

/-- The overload `details::write(ULONG, ULONG, ULONG)`. -/
def details.write_ULONG_3 (_first_value _second_value _third_value : ULONG) : String :=
  "," ++ format_unsigned _first_value ++ "," ++ format_unsigned _second_value ++ "," ++
    format_unsigned _third_value

/-- The overload `details::write(double, double, double)`. -/
def details.write_double_3 {D : Type} (format_f : D → String)
    (_first_value _second_value _third_value : D) : String :=
  "," ++ format_f _first_value ++ "," ++ format_f _second_value ++ "," ++
    format_f _third_value

/-- The call `sort(_data.begin(), _data.end())`: the samples in ascending order. -/
def std_sort (_data : List ULONGLONG) : List ULONGLONG :=
  _data.insertionSort (fun a b => a ≤ b)

/-- What a call puts into the file. `start_row` and `end_row` are only declared in the
header; they appear as the markers they write. -/
inductive FileEvent where
  | start_row (_class_name _counter_name : String)
  | WriteFile (buffer : String) (length : ULONG)
  | end_row
  deriving DecidableEq, Repr

/-- One call of a member function of `ctsWriteDetails`: the vector as the call leaves it,
what went into the file, and whether the call ended with an exception. -/
structure WriteStep where
  data : List ULONGLONG
  events : List FileEvent
  threw : Bool
  deriving DecidableEq, Repr

/-- The text `formatted_data` that `write_details` builds from the sorted vector. -/
def ctsWriteDetails.formatted_data {D : Type}
    (ctSampledStandardDeviation ctInterquartileRange : List ULONGLONG → D × D × D)
    (format_f : D → String) (_data : List ULONGLONG) : String :=
  let std_tuple := ctSampledStandardDeviation _data
  let interquartile_tuple := ctInterquartileRange _data
  details.write_ULONG (static_cast_DWORD _data.length) ++
    details.write_ULONGLONG_2 (_data.head?.getD 0) (_data.getLast?.getD 0) ++
    details.write_double_3 format_f std_tuple.1 std_tuple.2.1 std_tuple.2.2 ++
    details.write_double_3 format_f interquartile_tuple.1 interquartile_tuple.2.1
      interquartile_tuple.2.2

/-- The member function `ctsWriteDetails::write_details` at `T = ULONGLONG`; `write_ok`
tells whether `WriteFile` succeeds. -/
def ctsWriteDetails.write_details {D : Type}
    (ctSampledStandardDeviation ctInterquartileRange : List ULONGLONG → D × D × D)
    (format_f : D → String) (_class_name _counter_name : String) (_data : List ULONGLONG)
    (write_ok : Bool) : WriteStep :=
  if _data.isEmpty then
    { data := _data, events := [], threw := false }
  else if !_data.isEmpty then
    let sorted := std_sort _data
    let formatted_data :=
      ctsWriteDetails.formatted_data ctSampledStandardDeviation ctInterquartileRange
        format_f sorted
    let length := static_cast_DWORD (formatted_data.length * 2)
    if write_ok then
      { data := sorted
        events := [FileEvent.start_row _class_name _counter_name,
          FileEvent.WriteFile formatted_data length, FileEvent.end_row]
        threw := false }
    else
      { data := sorted
        events := [FileEvent.start_row _class_name _counter_name]
        threw := true }
  else
    { data := _data
      events := [FileEvent.start_row _class_name _counter_name, FileEvent.end_row]
      threw := false }

/-- The record shape of the specification: nine comma-prefixed fields, in the order
TotalCount, Min, Max, -1Std, Mean, +1Std, -1IQR, Median, +1IQR. -/
def specRecord {D : Type} (format_f : D → String) (totalCount : Nat) (min max : ULONGLONG)
    (std iqr : D × D × D) : String :=
  String.join
    ([toString totalCount, toString min, toString max,
      format_f std.1, format_f std.2.1, format_f std.2.2,
      format_f iqr.1, format_f iqr.2.1, format_f iqr.2.2].map (fun field => "," ++ field))

/-- Symbolic statistics: each value is the name of its column. -/
def columnNamesStd : List ULONGLONG → String × String × String :=
  fun _ => ("-1Std", "Mean", "+1Std")

/-- Symbolic statistics: each value is the name of its column. -/
def columnNamesIqr : List ULONGLONG → String × String × String :=
  fun _ => ("-1IQR", "Median", "+1IQR")

/-- The samples of the end-to-end scenario. -/
def latencySamples : List ULONGLONG := [1, 2, 3, 4, 5]

end ctsPerf

namespace ctsTraffic

/-! ## Single calls -/

/-- C1: `set_socket h` on a session whose handle is valid ends in the fatal path and leaves
the session, its stored handle included, as it was; on a session whose handle is
`INVALID_SOCKET` it returns and the stored handle is `h`. -/
theorem set_socket_fatal_iff_handle_valid (self : ctsSocket) (h : SOCKET) :
    (self.socket ≠ INVALID_SOCKET →
      (self.set_socket h).outcome = Outcome.fatal ∧ (self.set_socket h).state = self) ∧
    (self.socket = INVALID_SOCKET →
      (self.set_socket h).outcome = Outcome.returned () ∧
        (self.set_socket h).state.socket = h) := by
  constructor
  · intro hv
    simp [ctsSocket.set_socket, ctFatalCondition, hv]
  · intro hi
    simp [ctsSocket.set_socket, ctFatalCondition, hi]

/-- C1, at the session holding handle 5 and at a fresh session, both called with 7. -/
theorem set_socket_fatal_iff_handle_valid_witness :
    ((sessionWithHandle.set_socket 7).outcome = Outcome.fatal ∧
      (sessionWithHandle.set_socket 7).state = sessionWithHandle) ∧
    (((ctsSocket.fresh liveParent).set_socket 7).outcome = Outcome.returned () ∧
      ((ctsSocket.fresh liveParent).set_socket 7).state.socket = 7) :=
  ⟨(set_socket_fatal_iff_handle_valid sessionWithHandle 7).1 (by decide),
    (set_socket_fatal_iff_handle_valid (ctsSocket.fresh liveParent) 7).2 rfl⟩

/-- C2: with no operation pending and a live parent, `complete_state e` delivers to the
parent the last error of the attached pattern, whatever `e` is, and delivers `e` when no
pattern is attached; the parent is notified once by that call. With the pattern that
recorded 10054 and `e = 0` the parent receives 10054. -/
theorem complete_state_delivers_recorded_error (self : ctsSocket) (e : DWORD)
    (par : ctsSocketState) (hcount : self.io_count = 0) (hpar : self.parent.lock = some par) :
    (∀ p, self.pattern = some p →
      (self.complete_state e).outcome = Outcome.returned () ∧
      (self.complete_state e).events =
        [Event.register_callback none, Event.parent_complete_state par p.last_error]) ∧
    (self.pattern = none →
      (self.complete_state e).outcome = Outcome.returned () ∧
      (self.complete_state e).events = [Event.parent_complete_state par e]) ∧
    (sessionWithPattern.complete_state 0).events =
      [Event.register_callback none, Event.parent_complete_state { id := 0 } 10054] := by
  refine ⟨?_, ?_, ?_⟩
  · intro p hp
    simp [ctsSocket.complete_state, ctFatalCondition, ctMemoryGuardRead, hcount, hpar, hp,
      ctsIOPattern.get_last_error]
  · intro hp
    simp [ctsSocket.complete_state, ctFatalCondition, ctMemoryGuardRead, hcount, hpar, hp]
  · decide

/-- C2, at a pattern whose last error is 0 with the caller passing 5: the parent receives
0. -/
theorem complete_state_delivers_recorded_error_witness :
    (sessionWithCleanPattern.complete_state 5).outcome = Outcome.returned () ∧
    (sessionWithCleanPattern.complete_state 5).events =
      [Event.register_callback none, Event.parent_complete_state { id := 0 } 0] :=
  (complete_state_delivers_recorded_error sessionWithCleanPattern 5 { id := 0 } rfl rfl).1
    { last_error := 0, callback := none } rfl

/-- C3: `complete_state e` ends in the fatal path exactly when the pending count is not
zero; when it does, no event happened (the parent was not notified) and the session, the
callback registered on its pattern included, is as it was. -/
theorem complete_state_fatal_iff_pending (self : ctsSocket) (e : DWORD) :
    ((self.complete_state e).outcome = Outcome.fatal ↔ self.io_count ≠ 0) ∧
    ((self.complete_state e).outcome = Outcome.fatal →
      (self.complete_state e).events = [] ∧ (self.complete_state e).state = self) := by
  by_cases h : self.io_count = 0
  · constructor
    · simp only [ctsSocket.complete_state, ctFatalCondition, ctMemoryGuardRead, h]
      cases self.parent.lock <;> simp
    · simp only [ctsSocket.complete_state, ctFatalCondition, ctMemoryGuardRead, h]
      cases self.parent.lock <;> simp
  · simp [ctsSocket.complete_state, ctFatalCondition, ctMemoryGuardRead, h]

/-- C3, at the session with three operations pending. -/
theorem complete_state_fatal_iff_pending_witness :
    (sessionWithPending.complete_state 0).events = [] ∧
      (sessionWithPending.complete_state 0).state = sessionWithPending :=
  (complete_state_fatal_iff_pending sessionWithPending 0).2
    (((complete_state_fatal_iff_pending sessionWithPending 0).1).2 (by decide))

/-! ## Runs -/

theorem run_nil (self : ctsSocket) : run [] self = [] := rfl

theorem run_cons_fatal (op : Op) (ops : List Op) (self : ctsSocket)
    (h : (step op self).outcome = Outcome.fatal) : run (op :: ops) self = [step op self] := by
  simp [run, h]

theorem run_cons_alive (op : Op) (ops : List Op) (self : ctsSocket)
    (h : (step op self).outcome ≠ Outcome.fatal) :
    run (op :: ops) self = step op self :: run ops (step op self).state := by
  cases hc : (step op self).outcome with
  | fatal => exact absurd hc h
  | threw => simp [run, hc]
  | returned v => simp [run, hc]

theorem hasFatal_nil : hasFatal [] = false := rfl

theorem hasFatal_cons (r : Step Ret) (tr : List (Step Ret)) :
    hasFatal (r :: tr) = (decide (r.outcome = Outcome.fatal) || hasFatal tr) := by
  simp [hasFatal]

theorem allEvents_nil : allEvents [] = [] := rfl

theorem allEvents_cons (r : Step Ret) (tr : List (Step Ret)) :
    allEvents (r :: tr) = r.events ++ allEvents tr := by
  simp [allEvents]

theorem finalState_nil (self : ctsSocket) : finalState self [] = self := rfl

theorem finalState_cons (self : ctsSocket) (r : Step Ret) (tr : List (Step Ret)) :
    finalState self (r :: tr) = finalState r.state tr := rfl

theorem erase_state {α : Type} (r : Step α) (f : α → Ret) : (r.erase f).state = r.state := rfl

theorem erase_events {α : Type} (r : Step α) (f : α → Ret) : (r.erase f).events = r.events := rfl

theorem erase_fatal {α : Type} (r : Step α) (f : α → Ret) :
    (r.erase f).outcome = Outcome.fatal ↔ r.outcome = Outcome.fatal := by
  cases h : r.outcome <;> simp [Step.erase, h]

/-- No call changes the parent reference. -/
theorem step_parent (op : Op) (self : ctsSocket) : (step op self).state.parent = self.parent := by
  cases op with
  | set_socket s =>
    simp only [step, erase_state, ctsSocket.set_socket, ctFatalCondition]
    split_ifs <;> rfl
  | close_socket =>
    simp only [step, erase_state, ctsSocket.close_socket]
    split_ifs <;> rfl
  | thread_pool ok =>
    simp only [step, erase_state, ctsSocket.thread_pool]
    split_ifs
    · split <;> rfl
    · rfl
  | complete_state e =>
    simp only [step, erase_state, ctsSocket.complete_state, ctFatalCondition]
    split_ifs
    · rfl
    · cases self.parent.lock <;> rfl
  | io_pattern => rfl
  | set_io_pattern p => rfl
  | increment_io => rfl
  | decrement_io =>
    simp only [step, erase_state, ctsSocket.decrement_io, ctFatalCondition]
    split_ifs <;> rfl
  | pended_io => rfl
  | shutdown =>
    simp only [step, erase_state, ctsSocket.shutdown, ctsSocket.close_socket]
    split_ifs <;> rfl
  | set_timer task func c k =>
    simp only [step, erase_state, ctsSocket.set_timer, ctThreadpoolTimer.construct,
      ctThreadpoolTimer.schedule_singleton]
    cases self.tp_timer <;> cases c <;> cases k <;> rfl

/-- A call notifies the parent once when it is a `complete_state` that returns and the
parent is alive, and never otherwise. -/
theorem step_notifyCount (op : Op) (self : ctsSocket) (par : ctsSocketState)
    (hpar : self.parent.lock = some par) (hf : (step op self).outcome ≠ Outcome.fatal) :
    notifyCount (step op self).events = if op.isCompleteState then 1 else 0 := by
  cases op with
  | set_socket s =>
    by_cases h : self.socket = INVALID_SOCKET <;>
      simp [step, erase_events, ctsSocket.set_socket, ctFatalCondition, notifyCount,
        Op.isCompleteState, h]
  | close_socket =>
    by_cases h : self.socket = INVALID_SOCKET <;>
      simp [step, erase_events, ctsSocket.close_socket, notifyCount, Op.isCompleteState, h]
  | thread_pool ok =>
    by_cases h : self.socket = INVALID_SOCKET <;> cases hi : self.tp_iocp <;> cases ok <;>
      simp [step, erase_events, ctsSocket.thread_pool, ctThreadIocp.construct, notifyCount,
        Op.isCompleteState, h, hi]
  | complete_state e =>
    rw [step, Ne, erase_fatal] at hf
    by_cases h0 : self.io_count = 0
    · cases hp : self.pattern <;>
        simp [step, erase_events, ctsSocket.complete_state, ctFatalCondition,
          ctMemoryGuardRead, h0, hpar, hp, notifyCount, Op.isCompleteState]
    · simp [ctsSocket.complete_state, ctFatalCondition, ctMemoryGuardRead, h0] at hf
  | io_pattern => simp [step, erase_events, ctsSocket.io_pattern, notifyCount, Op.isCompleteState]
  | set_io_pattern p =>
    simp [step, erase_events, ctsSocket.set_io_pattern, notifyCount, Op.isCompleteState]
  | increment_io =>
    simp [step, erase_events, ctsSocket.increment_io, notifyCount, Op.isCompleteState]
  | decrement_io =>
    by_cases h : ctMemoryGuardDecrement self.io_count < 0 <;>
      simp [step, erase_events, ctsSocket.decrement_io, ctFatalCondition, notifyCount,
        Op.isCompleteState, h]
  | pended_io => simp [step, erase_events, ctsSocket.pended_io, notifyCount, Op.isCompleteState]
  | shutdown =>
    by_cases h : self.socket = INVALID_SOCKET <;>
      simp [step, erase_events, ctsSocket.shutdown, ctsSocket.close_socket, notifyCount,
        Op.isCompleteState, h]
  | set_timer task func c k =>
    cases ht : self.tp_timer <;> cases c <;> cases k <;>
      simp [step, erase_events, ctsSocket.set_timer, ctThreadpoolTimer.construct,
        ctThreadpoolTimer.schedule_singleton, notifyCount, Op.isCompleteState, ht]

theorem notifyCount_append (a b : List Event) :
    notifyCount (a ++ b) = notifyCount a + notifyCount b := by
  simp [notifyCount, List.countP_append]

/-- C4 (as amended): the session has no once-only guard. In a run without a fatal call,
from a session whose parent is alive, the parent is notified once for every
`complete_state` call of the run: as many notifications as calls. -/
theorem notify_once_per_complete_state_call (ops : List Op) (self : ctsSocket)
    (par : ctsSocketState) (hpar : self.parent.lock = some par)
    (hf : hasFatal (run ops self) = false) :
    notifyCount (allEvents (run ops self)) = opCount Op.isCompleteState ops := by
  induction ops generalizing self with
  | nil => simp [run_nil, allEvents_nil, notifyCount, opCount]
  | cons op ops ih =>
    by_cases hfat : (step op self).outcome = Outcome.fatal
    · rw [run_cons_fatal op ops self hfat, hasFatal_cons] at hf
      simp [hfat] at hf
    · rw [run_cons_alive op ops self hfat] at hf ⊢
      rw [hasFatal_cons] at hf
      have hrest : hasFatal (run ops (step op self).state) = false := by
        cases hh : hasFatal (run ops (step op self).state) with
        | false => rfl
        | true => simp [hh] at hf
      have hpar2 : (step op self).state.parent.lock = some par := by
        rw [step_parent]; exact hpar
      rw [allEvents_cons, notifyCount_append, ih (step op self).state hpar2 hrest,
        step_notifyCount op self par hpar hfat]
      cases hc : op.isCompleteState <;> simp [opCount, List.countP_cons, hc, Nat.add_comm]

/-- C4 (as amended), at two `complete_state 0` calls on a fresh session. -/
theorem notify_once_per_complete_state_call_witness :
    notifyCount (allEvents (run twoCompletions (ctsSocket.fresh liveParent))) = 2 :=
  notify_once_per_complete_state_call twoCompletions (ctsSocket.fresh liveParent)
    { id := 0 } rfl (by decide)

/-- C4 (as stated) fails: two `complete_state 0` calls on a fresh session with a live
parent, both made with no operation pending, neither fatal, reach the parent's handler
twice. -/
theorem complete_state_twice_notifies_twice :
    (ctsSocket.fresh liveParent).io_count = 0 ∧
    (finalState (ctsSocket.fresh liveParent)
      (run [Op.complete_state 0] (ctsSocket.fresh liveParent))).io_count = 0 ∧
    hasFatal (run [Op.complete_state 0, Op.complete_state 0]
      (ctsSocket.fresh liveParent)) = false ∧
    allEvents (run [Op.complete_state 0, Op.complete_state 0] (ctsSocket.fresh liveParent)) =
      [Event.parent_complete_state { id := 0 } 0, Event.parent_complete_state { id := 0 } 0] := by
  decide

/-! ## The pending count -/

theorem wrapLong_of_inRange (x : Int) (hlo : -2147483648 ≤ x) (hhi : x < 2147483648) :
    wrapLong x = x := by
  unfold wrapLong
  omega

theorem step_increment_state (self : ctsSocket) :
    (step Op.increment_io self).state.io_count = wrapLong (self.io_count + 1) := rfl

theorem step_increment_outcome (self : ctsSocket) :
    (step Op.increment_io self).outcome =
      Outcome.returned (Ret.long (wrapLong (self.io_count + 1))) := rfl

theorem step_decrement_state (self : ctsSocket) :
    (step Op.decrement_io self).state.io_count = wrapLong (self.io_count - 1) := by
  by_cases h : ctMemoryGuardDecrement self.io_count < 0 <;>
    simp [step, erase_state, ctsSocket.decrement_io, ctFatalCondition, h] <;>
    rfl

theorem decrement_io_fatal_iff (self : ctsSocket) :
    self.decrement_io.outcome = Outcome.fatal ↔ wrapLong (self.io_count - 1) < 0 := by
  by_cases h : ctMemoryGuardDecrement self.io_count < 0
  · simp only [ctsSocket.decrement_io, ctFatalCondition, h, if_true]
    simpa [ctMemoryGuardDecrement] using h
  · simp only [ctsSocket.decrement_io, ctFatalCondition, h, if_false]
    simpa [ctMemoryGuardDecrement] using h

theorem step_decrement_fatal_iff (self : ctsSocket) :
    (step Op.decrement_io self).outcome = Outcome.fatal ↔ wrapLong (self.io_count - 1) < 0 := by
  rw [step, erase_fatal, decrement_io_fatal_iff]

theorem step_decrement_outcome (self : ctsSocket) (h : ¬ wrapLong (self.io_count - 1) < 0) :
    (step Op.decrement_io self).outcome =
      Outcome.returned (Ret.long (wrapLong (self.io_count - 1))) := by
  have h2 : ¬ ctMemoryGuardDecrement self.io_count < 0 := h
  simp [step, Step.erase, ctsSocket.decrement_io, ctFatalCondition, h2]
  rfl

/-- A counting call that is not fatal returns the new value of the counter. -/
theorem step_count_returns (op : Op) (self : ctsSocket) (hop : op.isCount = true)
    (hf : (step op self).outcome ≠ Outcome.fatal) :
    (step op self).outcome = Outcome.returned (Ret.long (step op self).state.io_count) := by
  cases op with
  | increment_io => rfl
  | decrement_io =>
    have h : ¬ wrapLong (self.io_count - 1) < 0 := fun hh =>
      hf ((step_decrement_fatal_iff self).2 hh)
    rw [step_decrement_outcome self h, step_decrement_state]
  | _ => simp [Op.isCount] at hop

theorem hasFatal_cons_alive (r : Step Ret) (tr : List (Step Ret))
    (h : r.outcome ≠ Outcome.fatal) : hasFatal (r :: tr) = hasFatal tr := by
  simp [hasFatal_cons, h]

theorem hasFatal_cons_fatal (r : Step Ret) (tr : List (Step Ret))
    (h : r.outcome = Outcome.fatal) : hasFatal (r :: tr) = true := by
  simp [hasFatal_cons, h]

/-- A run of `pre ++ post` is the run of `pre`, followed, when no call of it was fatal, by
the run of `post` from the state `pre` ended in. -/
theorem run_append (pre post : List Op) (self : ctsSocket) :
    run (pre ++ post) self =
      if hasFatal (run pre self) = true then run pre self
      else run pre self ++ run post (finalState self (run pre self)) := by
  induction pre generalizing self with
  | nil => simp [run_nil, hasFatal_nil, finalState_nil]
  | cons op pre ih =>
    by_cases hfat : (step op self).outcome = Outcome.fatal
    · rw [List.cons_append, run_cons_fatal op _ self hfat, run_cons_fatal op _ self hfat,
        hasFatal_cons_fatal _ _ hfat]
      simp
    · rw [List.cons_append, run_cons_alive op _ self hfat, run_cons_alive op _ self hfat,
        hasFatal_cons_alive _ _ hfat, finalState_cons, ih]
      split_ifs <;> simp

theorem hasFatal_run_of_append (pre post : List Op) (self : ctsSocket)
    (h : hasFatal (run (pre ++ post) self) = false) : hasFatal (run pre self) = false := by
  cases hp : hasFatal (run pre self) with
  | false => rfl
  | true =>
    rw [run_append, if_pos hp] at h
    rw [hp] at h
    exact absurd h (by decide)

theorem finalState_of_getLast (self : ctsSocket) (tr : List (Step Ret)) (r : Step Ret)
    (h : tr.getLast? = some r) : finalState self tr = r.state := by
  induction tr generalizing self with
  | nil => simp at h
  | cons a rest ih =>
    cases rest with
    | nil =>
      simp at h
      simp [finalState, h]
    | cons b rest2 =>
      rw [List.getLast?_cons_cons] at h
      rw [finalState_cons]
      exact ih a.state h

/-- In a run of counting calls, every call that is not fatal returned the value of the
counter it left behind. -/
theorem run_count_returns (ops : List Op) (self : ctsSocket)
    (hops : ∀ op ∈ ops, op.isCount = true) :
    ∀ r ∈ run ops self, r.outcome ≠ Outcome.fatal →
      r.outcome = Outcome.returned (Ret.long r.state.io_count) := by
  induction ops generalizing self with
  | nil => simp [run_nil]
  | cons op ops ih =>
    have hop : op.isCount = true := hops op (List.mem_cons_self _ _)
    have hrest : ∀ o ∈ ops, o.isCount = true := fun o ho => hops o (List.mem_cons_of_mem _ ho)
    intro r hr hne
    by_cases hfat : (step op self).outcome = Outcome.fatal
    · rw [run_cons_fatal op ops self hfat] at hr
      simp at hr
      rw [hr] at hne
      exact absurd hfat hne
    · rw [run_cons_alive op ops self hfat] at hr
      rcases List.mem_cons.1 hr with h1 | h2
      · rw [h1]; exact step_count_returns op self hop hfat
      · exact ih (step op self).state hrest r h2 hne

theorem not_fatal_of_mem (tr : List (Step Ret)) (h : hasFatal tr = false) :
    ∀ r ∈ tr, r.outcome ≠ Outcome.fatal := by
  intro r hr hfat
  have : hasFatal tr = true := by
    simp only [hasFatal, List.any_eq_true]
    exact ⟨r, hr, by simp [hfat]⟩
  rw [this] at h
  exact absurd h (by decide)

theorem balance_le_length (l : List Op) : balance l ≤ l.length := by
  induction l with
  | nil => simp [balance]
  | cons a l ih =>
    cases a <;> simp only [balance, List.length_cons] <;> push_cast <;> omega

/-- A sequence of fewer than 2^31 calls never has 2^31 operations pending. -/
theorem balance_bound_of_length (ops : List Op) (hlen : ops.length < 2147483648) :
    ∀ pre post, ops = pre ++ post → balance pre < 2147483648 := by
  intro pre post hsplit
  have hl : pre.length ≤ ops.length := by rw [hsplit, List.length_append]; omega
  have := balance_le_length pre
  omega

/-- The bound on the pending count, passed from a sequence to what follows its first
call. -/
theorem pending_bound_tail (op : Op) (ops : List Op) (self : ctsSocket)
    (hfat : (step op self).outcome ≠ Outcome.fatal)
    (hd : ∀ pre, self.io_count + balance (op :: pre) =
      (step op self).state.io_count + balance pre)
    (hb : ∀ pre post, op :: ops = pre ++ post → hasFatal (run pre self) = false →
      self.io_count + balance pre < 2147483648) :
    ∀ pre post, ops = pre ++ post → hasFatal (run pre (step op self).state) = false →
      (step op self).state.io_count + balance pre < 2147483648 := by
  intro pre post hsplit hpf
  have := hb (op :: pre) post (by rw [hsplit]; rfl)
    (by rw [run_cons_alive op pre self hfat, hasFatal_cons_alive _ _ hfat]; exact hpf)
  rw [hd pre] at this
  exact this

/-- The bound on the pending count, read after the first call of a sequence. -/
theorem pending_bound_head (op : Op) (ops : List Op) (self : ctsSocket)
    (hfat : (step op self).outcome ≠ Outcome.fatal)
    (hb : ∀ pre post, op :: ops = pre ++ post → hasFatal (run pre self) = false →
      self.io_count + balance pre < 2147483648) :
    self.io_count + balance [op] < 2147483648 :=
  hb [op] ops rfl
    (by rw [run_cons_alive op [] self hfat, run_nil, hasFatal_cons_alive _ _ hfat,
      hasFatal_nil])

/-- The counter follows the calls: from a counter that is not negative, as long as the
pending count stays below 2^31, a run of counting calls without a fatal call ends with the
counter at its start value plus the increments minus the decrements, not negative. -/
theorem run_count_balance (ops : List Op) (self : ctsSocket)
    (hops : ∀ op ∈ ops, op.isCount = true) (h0 : 0 ≤ self.io_count)
    (hb : ∀ pre post, ops = pre ++ post → hasFatal (run pre self) = false →
      self.io_count + balance pre < 2147483648)
    (hf : hasFatal (run ops self) = false) :
    (finalState self (run ops self)).io_count = self.io_count + balance ops ∧
      0 ≤ self.io_count + balance ops := by
  induction ops generalizing self with
  | nil => simp [run_nil, finalState_nil, balance, h0]
  | cons op ops ih =>
    have hop : op.isCount = true := hops op (List.mem_cons_self _ _)
    have hrest : ∀ o ∈ ops, o.isCount = true := fun o ho => hops o (List.mem_cons_of_mem _ ho)
    have hb0 : self.io_count < 2147483648 := by
      have := hb [] (op :: ops) rfl rfl
      simpa [balance] using this
    by_cases hfat : (step op self).outcome = Outcome.fatal
    · rw [run_cons_fatal op ops self hfat, hasFatal_cons_fatal _ _ hfat] at hf
      exact absurd hf (by decide)
    · rw [run_cons_alive op ops self hfat, hasFatal_cons_alive _ _ hfat] at hf
      rw [run_cons_alive op ops self hfat, finalState_cons]
      cases op with
      | increment_io =>
        have hb1 : self.io_count + 1 < 2147483648 := by
          have := pending_bound_head Op.increment_io ops self hfat hb
          simpa [balance] using this
        have hw : wrapLong (self.io_count + 1) = self.io_count + 1 :=
          wrapLong_of_inRange _ (by omega) (by omega)
        have hs : (step Op.increment_io self).state.io_count = self.io_count + 1 := by
          rw [step_increment_state, hw]
        have htail := pending_bound_tail Op.increment_io ops self hfat
          (fun pre => by rw [hs]; simp only [balance]; omega) hb
        have := ih (step Op.increment_io self).state hrest (by omega) htail hf
        rw [hs] at this
        simp only [balance]
        constructor
        · omega
        · omega
      | decrement_io =>
        have hnf : ¬ wrapLong (self.io_count - 1) < 0 := fun hh =>
          hfat ((step_decrement_fatal_iff self).2 hh)
        have hw : wrapLong (self.io_count - 1) = self.io_count - 1 :=
          wrapLong_of_inRange _ (by omega) (by omega)
        have hs : (step Op.decrement_io self).state.io_count = self.io_count - 1 := by
          rw [step_decrement_state, hw]
        rw [hw] at hnf
        have htail := pending_bound_tail Op.decrement_io ops self hfat
          (fun pre => by rw [hs]; simp only [balance]; omega) hb
        have := ih (step Op.decrement_io self).state hrest (by omega) htail hf
        rw [hs] at this
        simp only [balance]
        constructor
        · omega
        · omega
      | _ => simp [Op.isCount] at hop

/-- In a run of counting calls from a counter that is not negative, a fatal call is a
`decrement_io` made when the counter was zero. -/
theorem run_count_fatal (ops : List Op) (self : ctsSocket)
    (hops : ∀ op ∈ ops, op.isCount = true) (h0 : 0 ≤ self.io_count)
    (hb : ∀ pre post, ops = pre ++ post → hasFatal (run pre self) = false →
      self.io_count + balance pre < 2147483648)
    (hf : hasFatal (run ops self) = true) :
    ∃ pre post, ops = pre ++ Op.decrement_io :: post ∧ hasFatal (run pre self) = false ∧
      (finalState self (run pre self)).io_count = 0 := by
  induction ops generalizing self with
  | nil => simp [run_nil, hasFatal_nil] at hf
  | cons op ops ih =>
    have hop : op.isCount = true := hops op (List.mem_cons_self _ _)
    have hrest : ∀ o ∈ ops, o.isCount = true := fun o ho => hops o (List.mem_cons_of_mem _ ho)
    have hb0 : self.io_count < 2147483648 := by
      have := hb [] (op :: ops) rfl rfl
      simpa [balance] using this
    by_cases hfat : (step op self).outcome = Outcome.fatal
    · cases op with
      | increment_io => rw [step_increment_outcome] at hfat; exact absurd hfat (by simp)
      | decrement_io =>
        have hneg : wrapLong (self.io_count - 1) < 0 := (step_decrement_fatal_iff self).1 hfat
        have hw : wrapLong (self.io_count - 1) = self.io_count - 1 :=
          wrapLong_of_inRange _ (by omega) (by omega)
        rw [hw] at hneg
        refine ⟨[], ops, rfl, ?_, ?_⟩
        · simp [run_nil, hasFatal_nil]
        · rw [run_nil, finalState_nil]; omega
      | _ => simp [Op.isCount] at hop
    · rw [run_cons_alive op ops self hfat, hasFatal_cons_alive _ _ hfat] at hf
      have hnext : 0 ≤ (step op self).state.io_count ∧
          ∀ pre, self.io_count + balance (op :: pre) =
            (step op self).state.io_count + balance pre := by
        cases op with
        | increment_io =>
          have hb1 : self.io_count + 1 < 2147483648 := by
            have := pending_bound_head Op.increment_io ops self hfat hb
            simpa [balance] using this
          rw [step_increment_state, wrapLong_of_inRange _ (by omega) (by omega)]
          refine ⟨by omega, fun pre => ?_⟩
          simp only [balance]
          omega
        | decrement_io =>
          have hnf : ¬ wrapLong (self.io_count - 1) < 0 := fun hh =>
            hfat ((step_decrement_fatal_iff self).2 hh)
          rw [step_decrement_state]
          rw [wrapLong_of_inRange _ (by omega) (by omega)] at hnf ⊢
          refine ⟨by omega, fun pre => ?_⟩
          simp only [balance]
          omega
        | _ => simp [Op.isCount] at hop
      have htail := pending_bound_tail op ops self hfat hnext.2 hb
      obtain ⟨pre, post, hsplit, hpf, hcount⟩ :=
        ih (step op self).state hrest hnext.1 htail hf
      refine ⟨op :: pre, post, by rw [hsplit]; rfl, ?_, ?_⟩
      · rw [run_cons_alive op pre self hfat, hasFatal_cons_alive _ _ hfat]; exact hpf
      · rw [run_cons_alive op pre self hfat, finalState_cons]; exact hcount

/-- After `n` increments the counter holds its start value plus `n`, wrapped to 32 bits;
no increment is fatal. -/
theorem run_increments (n : Nat) (self : ctsSocket) (c : Int)
    (hc : self.io_count = wrapLong c) :
    hasFatal (run (List.replicate n Op.increment_io) self) = false ∧
      (finalState self (run (List.replicate n Op.increment_io) self)).io_count =
        wrapLong (c + n) := by
  induction n generalizing self c with
  | zero => simp [run_nil, hasFatal_nil, finalState_nil, hc]
  | succ n ih =>
    have hfat : (step Op.increment_io self).outcome ≠ Outcome.fatal := by
      rw [step_increment_outcome]; simp
    have hs : (step Op.increment_io self).state.io_count = wrapLong (c + 1) := by
      rw [step_increment_state, hc]
      unfold wrapLong
      omega
    have := ih (step Op.increment_io self).state (c + 1) hs
    rw [List.replicate_succ, run_cons_alive _ _ self hfat, hasFatal_cons_alive _ _ hfat,
      finalState_cons]
    refine ⟨this.1, ?_⟩
    rw [this.2]
    congr 1
    push_cast
    omega

/-- C5 (as amended): on a fresh session, for every sequence of `increment_io` /
`decrement_io` calls in which the pending count stays below 2^31 (increments minus
decrements are below 2^31 after every call reached without a fatal call, so the 32-bit
counter does not wrap), however long the sequence is: either some call of it
is fatal, or after every call (after every initial part `pre` of the sequence) the
counter, which `pended_io` returns, is increments minus decrements so far and not
negative, and the last call returned that value; in a state reached without a fatal call
`decrement_io` is fatal exactly when the counter is zero; and a fatal call in the sequence
is a `decrement_io` made when the counter was zero. -/
theorem pending_count_tracks_calls (par : weak_ptr ctsSocketState) (ops : List Op)
    (hops : ∀ op ∈ ops, op.isCount = true)
    (hbound : ∀ pre post, ops = pre ++ post →
      hasFatal (run pre (ctsSocket.fresh par)) = false → balance pre < 2147483648) :
    (hasFatal (run ops (ctsSocket.fresh par)) = true ∨
      ∀ pre post, ops = pre ++ post →
        (finalState (ctsSocket.fresh par) (run pre (ctsSocket.fresh par))).io_count =
          balance pre ∧
        0 ≤ balance pre ∧
        (finalState (ctsSocket.fresh par) (run pre (ctsSocket.fresh par))).pended_io.outcome =
          Outcome.returned (balance pre) ∧
        ∀ r, (run pre (ctsSocket.fresh par)).getLast? = some r →
          r.outcome = Outcome.returned (Ret.long (balance pre))) ∧
    (∀ pre post, ops = pre ++ post → hasFatal (run pre (ctsSocket.fresh par)) = false →
      ((finalState (ctsSocket.fresh par)
          (run pre (ctsSocket.fresh par))).decrement_io.outcome = Outcome.fatal ↔
        (finalState (ctsSocket.fresh par) (run pre (ctsSocket.fresh par))).io_count = 0)) ∧
    (hasFatal (run ops (ctsSocket.fresh par)) = true →
      ∃ pre post, ops = pre ++ Op.decrement_io :: post ∧
        hasFatal (run pre (ctsSocket.fresh par)) = false ∧
        (finalState (ctsSocket.fresh par) (run pre (ctsSocket.fresh par))).io_count = 0) := by
  have hfresh : (ctsSocket.fresh par).io_count = 0 := rfl
  have hb0 : ∀ (l : List Op),
      (∀ pre post, l = pre ++ post → hasFatal (run pre (ctsSocket.fresh par)) = false →
        balance pre < 2147483648) →
      ∀ pre post, l = pre ++ post → hasFatal (run pre (ctsSocket.fresh par)) = false →
        (ctsSocket.fresh par).io_count + balance pre < 2147483648 := by
    intro l hl pre post hsplit hpf
    rw [hfresh]
    have := hl pre post hsplit hpf
    omega
  have key : ∀ pre post, ops = pre ++ post → hasFatal (run pre (ctsSocket.fresh par)) = false →
      (finalState (ctsSocket.fresh par) (run pre (ctsSocket.fresh par))).io_count =
        balance pre ∧ 0 ≤ balance pre ∧ balance pre < 2147483648 := by
    intro pre post hsplit hpf
    have hpre : ∀ op ∈ pre, op.isCount = true := fun op hop =>
      hops op (by rw [hsplit]; exact List.mem_append_left _ hop)
    have hpb : ∀ p q, pre = p ++ q → hasFatal (run p (ctsSocket.fresh par)) = false →
        balance p < 2147483648 := fun p q hpq hp =>
      hbound p (q ++ post) (by rw [hsplit, hpq, List.append_assoc]) hp
    have h := run_count_balance pre (ctsSocket.fresh par) hpre (by rw [hfresh])
      (hb0 pre hpb) hpf
    rw [hfresh] at h
    simp only [zero_add] at h
    exact ⟨h.1, h.2, hbound pre post hsplit hpf⟩
  refine ⟨?_, ?_, ?_⟩
  · cases hf : hasFatal (run ops (ctsSocket.fresh par)) with
    | true => exact Or.inl rfl
    | false =>
      right
      intro pre post hsplit
      have hpf : hasFatal (run pre (ctsSocket.fresh par)) = false := by
        rw [hsplit] at hf
        exact hasFatal_run_of_append pre post _ hf
      have hk := key pre post hsplit hpf
      have hpre : ∀ op ∈ pre, op.isCount = true := fun op hop =>
        hops op (by rw [hsplit]; exact List.mem_append_left _ hop)
      refine ⟨hk.1, hk.2.1, ?_, ?_⟩
      · simp [ctsSocket.pended_io, ctMemoryGuardRead, hk.1]
      · intro r hr
        have hmem : r ∈ run pre (ctsSocket.fresh par) := List.mem_of_getLast?_eq_some hr
        have hret := run_count_returns pre (ctsSocket.fresh par) hpre r hmem
          (not_fatal_of_mem _ hpf r hmem)
        rw [hret, ← finalState_of_getLast (ctsSocket.fresh par) _ r hr, hk.1]
  · intro pre post hsplit hpf
    have hk := key pre post hsplit hpf
    rw [decrement_io_fatal_iff, hk.1]
    have hw : wrapLong (balance pre - 1) = balance pre - 1 :=
      wrapLong_of_inRange _ (by omega) (by omega)
    rw [hw]
    omega
  · intro hf
    exact run_count_fatal ops (ctsSocket.fresh par) hops (by rw [hfresh])
      (hb0 ops hbound) hf

/-- C5 (as amended), at two increments followed by one decrement: the counter ends at 1
and the last call returned 1. -/
theorem pending_count_tracks_calls_witness :
    (finalState (ctsSocket.fresh liveParent)
      (run threeCalls (ctsSocket.fresh liveParent))).io_count = 1 ∧
    (run threeCalls (ctsSocket.fresh liveParent)).getLast?.map (fun r => r.outcome) =
      some (Outcome.returned (Ret.long 1)) :=
  ⟨(((pending_count_tracks_calls liveParent threeCalls (by decide)
      (fun pre post hsplit _ =>
        balance_bound_of_length threeCalls (by decide) pre post hsplit)).1.resolve_left
      (by decide)) threeCalls [] (by simp)).1,
    by decide⟩

theorem wrapLong_two_pow_31 : wrapLong (0 + ((2147483648 : Nat) : Int)) = -2147483648 := by
  unfold wrapLong
  norm_num

/-- C5 (as stated) fails: the counter is a 32-bit `long`. After 2^31 `increment_io` calls
on a fresh session no call was fatal, no `decrement_io` was made, and the counter that
`pended_io` returns is -2^31, a negative value that is not the number of increments. -/
theorem pending_count_wraps_negative :
    hasFatal (run (List.replicate 2147483648 Op.increment_io)
      (ctsSocket.fresh liveParent)) = false ∧
    (finalState (ctsSocket.fresh liveParent) (run (List.replicate 2147483648 Op.increment_io)
      (ctsSocket.fresh liveParent))).pended_io.outcome = Outcome.returned (-2147483648) := by
  have h := run_increments 2147483648 (ctsSocket.fresh liveParent) 0 rfl
  refine ⟨h.1, ?_⟩
  show Outcome.returned (ctMemoryGuardRead (finalState (ctsSocket.fresh liveParent)
    (run (List.replicate 2147483648 Op.increment_io) (ctsSocket.fresh liveParent))).io_count) = _
  rw [h.2, wrapLong_two_pow_31]
  rfl

/-! ## Shutdown -/

theorem closeCount_append (a b : List Event) :
    closeCount (a ++ b) = closeCount a + closeCount b := by
  simp [closeCount, List.countP_append]

theorem shutdown_state (self : ctsSocket) :
    self.shutdown.state =
      { self with socket := INVALID_SOCKET, tp_iocp := none, tp_timer := none } := by
  by_cases h : self.socket = INVALID_SOCKET
  · simp only [ctsSocket.shutdown, ctsSocket.close_socket, h, ne_eq, not_true_eq_false,
      if_false]
  · simp [ctsSocket.shutdown, ctsSocket.close_socket, h]

theorem shutdown_closeCount (self : ctsSocket) :
    closeCount self.shutdown.events = if self.socket ≠ INVALID_SOCKET then 1 else 0 := by
  by_cases h : self.socket = INVALID_SOCKET <;>
    simp [ctsSocket.shutdown, ctsSocket.close_socket, closeCount, h]

theorem step_shutdown_alive (self : ctsSocket) :
    (step Op.shutdown self).outcome ≠ Outcome.fatal := by
  simp [step, Step.erase, ctsSocket.shutdown]

/-- On a session that is already shut down, any number of further `shutdown` calls change
nothing and close nothing. -/
theorem run_shutdown_again (n : Nat) (self : ctsSocket) (hs : self.socket = INVALID_SOCKET)
    (hi : self.tp_iocp = none) (ht : self.tp_timer = none) :
    hasFatal (run (List.replicate n Op.shutdown) self) = false ∧
    (run (List.replicate n Op.shutdown) self).length = n ∧
    finalState self (run (List.replicate n Op.shutdown) self) = self ∧
    closeCount (allEvents (run (List.replicate n Op.shutdown) self)) = 0 := by
  induction n with
  | zero => simp [run_nil, hasFatal_nil, finalState_nil, allEvents_nil, closeCount]
  | succ n ih =>
    have hst : (step Op.shutdown self).state = self := by
      show self.shutdown.state = self
      rw [shutdown_state, ← hs, ← hi, ← ht]
    have hev : closeCount (step Op.shutdown self).events = 0 := by
      show closeCount self.shutdown.events = 0
      rw [shutdown_closeCount]; simp [hs]
    rw [List.replicate_succ, run_cons_alive _ _ self (step_shutdown_alive self),
      hasFatal_cons_alive _ _ (step_shutdown_alive self), finalState_cons, allEvents_cons,
      closeCount_append, hev, hst]
    refine ⟨ih.1, ?_, ih.2.2.1, ?_⟩
    · simp [ih.2.1]
    · simp [ih.2.2.2]

/-- C6: `shutdown` is idempotent. For every session and every `n ≥ 1`, `n` calls of
`shutdown` all return and leave the session in the state one call leaves it in, with the
handle `INVALID_SOCKET` and neither adapter nor timer; over the `n` calls `closesocket`
is called once when the session held a valid handle and never otherwise. `close_socket`
calls `closesocket` only on a valid handle, on that handle, and leaves the handle
`INVALID_SOCKET`. -/
theorem shutdown_idempotent (self : ctsSocket) (n : Nat) (hn : 1 ≤ n) :
    hasFatal (run (List.replicate n Op.shutdown) self) = false ∧
    (run (List.replicate n Op.shutdown) self).length = n ∧
    finalState self (run (List.replicate n Op.shutdown) self) = self.shutdown.state ∧
    self.shutdown.state.socket = INVALID_SOCKET ∧
    self.shutdown.state.tp_iocp = none ∧
    self.shutdown.state.tp_timer = none ∧
    closeCount (allEvents (run (List.replicate n Op.shutdown) self)) =
      (if self.socket ≠ INVALID_SOCKET then 1 else 0) ∧
    self.close_socket.state.socket = INVALID_SOCKET ∧
    self.close_socket.events.filter Event.isClose =
      (if self.socket ≠ INVALID_SOCKET then [Event.closesocket self.socket] else []) := by
  obtain ⟨m, rfl⟩ : ∃ m, n = m + 1 := ⟨n - 1, by omega⟩
  have hst : (step Op.shutdown self).state = self.shutdown.state := rfl
  have hev : (step Op.shutdown self).events = self.shutdown.events := rfl
  have hsock : self.shutdown.state.socket = INVALID_SOCKET := by rw [shutdown_state]
  have hiocp : self.shutdown.state.tp_iocp = none := by rw [shutdown_state]
  have htimer : self.shutdown.state.tp_timer = none := by rw [shutdown_state]
  have again := run_shutdown_again m self.shutdown.state hsock hiocp htimer
  rw [List.replicate_succ, run_cons_alive _ _ self (step_shutdown_alive self),
    hasFatal_cons_alive _ _ (step_shutdown_alive self), finalState_cons, allEvents_cons,
    closeCount_append, hst, hev, shutdown_closeCount]
  refine ⟨again.1, ?_, again.2.2.1, hsock, hiocp, htimer, ?_, ?_, ?_⟩
  · simp [again.2.1]
  · rw [again.2.2.2]; simp
  · by_cases h : self.socket = INVALID_SOCKET <;> simp [ctsSocket.close_socket, h]
  · by_cases h : self.socket = INVALID_SOCKET <;>
      simp [ctsSocket.close_socket, Event.isClose, h]

/-- C6, at three `shutdown` calls on the session that holds handle 5: one `closesocket`. -/
theorem shutdown_idempotent_witness :
    finalState sessionWithHandle (run (List.replicate 3 Op.shutdown) sessionWithHandle) =
      sessionWithHandle.shutdown.state ∧
    closeCount (allEvents (run (List.replicate 3 Op.shutdown) sessionWithHandle)) = 1 :=
  ⟨(shutdown_idempotent sessionWithHandle 3 (by decide)).2.2.1,
    (shutdown_idempotent sessionWithHandle 3 (by decide)).2.2.2.2.2.2.1⟩

/-! ## The completion adapter -/

/-- C7 (as amended): `thread_pool` creates an adapter only when the handle is valid and no
adapter is stored. With an invalid handle it returns the stored reference as it is (none
when no adapter was created or after `shutdown`, the earlier adapter after a
`close_socket`), creating nothing. With a valid handle and no adapter it constructs one
bound to that handle, stores it and returns it, or, when the construction fails, throws
and stores nothing. With a valid handle and an adapter stored it returns that adapter and
creates nothing. -/
theorem thread_pool_creates_when_valid_and_absent (self : ctsSocket) (platform_ok : Bool) :
    (self.socket = INVALID_SOCKET →
      (self.thread_pool platform_ok).outcome = Outcome.returned self.tp_iocp ∧
      (self.thread_pool platform_ok).state = self ∧
      iocpCreateCount (self.thread_pool platform_ok).events = 0) ∧
    (self.socket ≠ INVALID_SOCKET → self.tp_iocp = none → platform_ok = true →
      (self.thread_pool platform_ok).outcome =
        Outcome.returned (some { socket := self.socket }) ∧
      (self.thread_pool platform_ok).state =
        { self with tp_iocp := some { socket := self.socket } } ∧
      (self.thread_pool platform_ok).events =
        [Event.EnterCriticalSection, Event.make_ctThreadIocp self.socket,
          Event.LeaveCriticalSection]) ∧
    (self.socket ≠ INVALID_SOCKET → self.tp_iocp = none → platform_ok = false →
      (self.thread_pool platform_ok).outcome = Outcome.threw ∧
      (self.thread_pool platform_ok).state = self ∧
      iocpCreateCount (self.thread_pool platform_ok).events = 0) ∧
    (self.socket ≠ INVALID_SOCKET → ∀ a, self.tp_iocp = some a →
      (self.thread_pool platform_ok).outcome = Outcome.returned (some a) ∧
      (self.thread_pool platform_ok).state = self ∧
      iocpCreateCount (self.thread_pool platform_ok).events = 0) := by
  refine ⟨?_, ?_, ?_, ?_⟩
  · intro h
    simp [ctsSocket.thread_pool, h, iocpCreateCount]
  · intro h hi hok
    simp [ctsSocket.thread_pool, ctThreadIocp.construct, h, hi, hok]
  · intro h hi hok
    simp [ctsSocket.thread_pool, ctThreadIocp.construct, h, hi, hok, iocpCreateCount]
  · intro h a ha
    simp [ctsSocket.thread_pool, h, ha, iocpCreateCount]

/-- C7 (as amended), at the session that holds handle 5 and no adapter: the call creates
the adapter bound to 5 and returns it. -/
theorem thread_pool_creates_when_valid_and_absent_witness :
    (sessionWithHandle.thread_pool true).outcome = Outcome.returned (some { socket := 5 }) ∧
    (sessionWithHandle.thread_pool true).state =
      { sessionWithHandle with tp_iocp := some { socket := 5 } } ∧
    (sessionWithHandle.thread_pool true).events =
      [Event.EnterCriticalSection, Event.make_ctThreadIocp 5, Event.LeaveCriticalSection] :=
  (thread_pool_creates_when_valid_and_absent sessionWithHandle true).2.1
    (by decide) rfl rfl

/-- C7 (as stated) fails: after `set_socket 5`, `thread_pool` and `close_socket` the
handle is invalid, yet `thread_pool` returns the adapter created earlier, not an absent
result; and on a session with a valid handle and no adapter, `thread_pool` whose
construction fails throws and neither stores nor returns an adapter. -/
theorem thread_pool_after_close_returns_adapter :
    hasFatal (run attachUseClose (ctsSocket.fresh liveParent)) = false ∧
    sessionClosedWithAdapter.socket = INVALID_SOCKET ∧
    (sessionClosedWithAdapter.thread_pool true).outcome =
      Outcome.returned (some { socket := 5 }) ∧
    (sessionWithHandle.thread_pool false).outcome = Outcome.threw ∧
    (sessionWithHandle.thread_pool false).state.tp_iocp = none := by
  decide

/-! ## The handle -/

theorem hasFatal_append (a b : List (Step Ret)) :
    hasFatal (a ++ b) = (hasFatal a || hasFatal b) := by
  simp [hasFatal, List.any_append]

theorem validTransitions_cons_cons (a b : ctsSocket) (rest : List ctsSocket) :
    validTransitions (a :: b :: rest) = becomesValid a b + validTransitions (b :: rest) := rfl

theorem statesOf_cons (self : ctsSocket) (r : Step Ret) (tr : List (Step Ret)) :
    statesOf self (r :: tr) = self :: statesOf r.state tr := rfl

theorem statesOf_nil (self : ctsSocket) : statesOf self [] = [self] := rfl

/-- One call: the handle becomes valid only where it was invalid, and stops being valid
only through a `closesocket`. -/
theorem step_handle_account (op : Op) (self : ctsSocket) :
    becomesValid self (step op self).state + validBit self =
      closeCount (step op self).events + validBit (step op self).state := by
  cases op with
  | set_socket s =>
    by_cases h : self.socket = INVALID_SOCKET <;> by_cases hs : s = INVALID_SOCKET <;>
      simp [step, Step.erase, ctsSocket.set_socket, ctFatalCondition, closeCount,
        becomesValid, validBit, h, hs]
  | close_socket =>
    by_cases h : self.socket = INVALID_SOCKET <;>
      simp [step, Step.erase, ctsSocket.close_socket, closeCount, becomesValid, validBit, h]
  | thread_pool ok =>
    by_cases h : self.socket = INVALID_SOCKET <;> cases hi : self.tp_iocp <;> cases ok <;>
      simp [step, Step.erase, ctsSocket.thread_pool, ctThreadIocp.construct, closeCount,
        becomesValid, validBit, h, hi]
  | complete_state e =>
    by_cases h : self.socket = INVALID_SOCKET <;> by_cases h0 : self.io_count = 0 <;>
      cases hp : self.parent.lock <;> cases hq : self.pattern <;>
      simp [step, Step.erase, ctsSocket.complete_state, ctFatalCondition, ctMemoryGuardRead,
        closeCount, becomesValid, validBit, h, h0, hp, hq]
  | io_pattern =>
    by_cases h : self.socket = INVALID_SOCKET <;>
      simp [step, Step.erase, ctsSocket.io_pattern, closeCount, becomesValid, validBit, h]
  | set_io_pattern p =>
    by_cases h : self.socket = INVALID_SOCKET <;>
      simp [step, Step.erase, ctsSocket.set_io_pattern, closeCount, becomesValid, validBit, h]
  | increment_io =>
    by_cases h : self.socket = INVALID_SOCKET <;>
      simp [step, Step.erase, ctsSocket.increment_io, closeCount, becomesValid, validBit, h]
  | decrement_io =>
    by_cases h : self.socket = INVALID_SOCKET <;>
      by_cases hd : ctMemoryGuardDecrement self.io_count < 0 <;>
      simp [step, Step.erase, ctsSocket.decrement_io, ctFatalCondition, closeCount,
        becomesValid, validBit, h, hd]
  | pended_io =>
    by_cases h : self.socket = INVALID_SOCKET <;>
      simp [step, Step.erase, ctsSocket.pended_io, closeCount, becomesValid, validBit, h]
  | shutdown =>
    by_cases h : self.socket = INVALID_SOCKET <;>
      simp [step, Step.erase, ctsSocket.shutdown, ctsSocket.close_socket, closeCount,
        becomesValid, validBit, h]
  | set_timer task func c k =>
    by_cases h : self.socket = INVALID_SOCKET <;> cases ht : self.tp_timer <;> cases c <;>
      cases k <;>
      simp [step, Step.erase, ctsSocket.set_timer, ctThreadpoolTimer.construct,
        ctThreadpoolTimer.schedule_singleton, closeCount, becomesValid, validBit, h, ht]

/-- Along a run, invalid-to-valid transitions and `closesocket` calls balance. -/
theorem run_handle_account (ops : List Op) (self : ctsSocket) :
    validTransitions (statesOf self (run ops self)) + validBit self =
      closeCount (allEvents (run ops self)) + validBit (finalState self (run ops self)) := by
  induction ops generalizing self with
  | nil => simp [run_nil, statesOf_nil, validTransitions, allEvents_nil, closeCount,
      finalState_nil]
  | cons op ops ih =>
    have hstep := step_handle_account op self
    by_cases hfat : (step op self).outcome = Outcome.fatal
    · rw [run_cons_fatal op ops self hfat, statesOf_cons, statesOf_nil,
        validTransitions_cons_cons, allEvents_cons, allEvents_nil, finalState_cons,
        finalState_nil, List.append_nil]
      simp only [validTransitions]
      omega
    · rw [run_cons_alive op ops self hfat, statesOf_cons, allEvents_cons, finalState_cons,
        closeCount_append]
      have hrest := ih (step op self).state
      have hshape : statesOf (step op self).state (run ops (step op self).state) =
          (step op self).state ::
            (run ops (step op self).state).map (fun r => r.state) := rfl
      rw [hshape, validTransitions_cons_cons]
      rw [hshape] at hrest
      omega

/-- In a run without a fatal call every `set_socket` found the handle invalid. -/
theorem run_set_socket_at_invalid (pre post : List Op) (h : SOCKET) (self : ctsSocket)
    (hf : hasFatal (run (pre ++ Op.set_socket h :: post) self) = false) :
    (finalState self (run pre self)).socket = INVALID_SOCKET := by
  have hpre : hasFatal (run pre self) = false := hasFatal_run_of_append pre _ self hf
  rw [run_append, if_neg (by rw [hpre]; decide), hasFatal_append, hpre] at hf
  by_contra hv
  have hfat : (step (Op.set_socket h) (finalState self (run pre self))).outcome =
      Outcome.fatal := by
    simp [step, Step.erase, ctsSocket.set_socket, ctFatalCondition, hv]
  rw [run_cons_fatal _ _ _ hfat, hasFatal_cons_fatal _ _ hfat] at hf
  exact absurd hf (by decide)

/-- C8 (as amended): `set_socket` is fatal whenever the stored handle is valid, so in a run
without a fatal call every `set_socket` found the handle invalid and a valid handle is
never overwritten; but a handle that was closed may be set again. Along every run the
invalid-to-valid transitions balance the `closesocket` calls: transitions, plus one when
the handle was valid at the start, equal `closesocket` calls, plus one when the handle is
valid at the end. -/
theorem handle_valid_again_only_after_close (ops : List Op) (self : ctsSocket) :
    validTransitions (statesOf self (run ops self)) + validBit self =
      closeCount (allEvents (run ops self)) + validBit (finalState self (run ops self)) ∧
    (∀ pre h post, ops = pre ++ Op.set_socket h :: post →
      hasFatal (run ops self) = false →
      (finalState self (run pre self)).socket = INVALID_SOCKET) := by
  refine ⟨run_handle_account ops self, ?_⟩
  intro pre h post hsplit hf
  rw [hsplit] at hf
  exact run_set_socket_at_invalid pre post h self hf

/-- C8 (as amended), at set 5, close, set 7 on a fresh session: the second `set_socket`
found the handle invalid. -/
theorem handle_valid_again_only_after_close_witness :
    (finalState (ctsSocket.fresh liveParent)
      (run [Op.set_socket 5, Op.close_socket] (ctsSocket.fresh liveParent))).socket =
        INVALID_SOCKET :=
  (handle_valid_again_only_after_close attachCloseAttach (ctsSocket.fresh liveParent)).2
    [Op.set_socket 5, Op.close_socket] 7 [] rfl (by decide)

/-- C8 (as stated) fails: on a fresh session `set_socket 5`, `close_socket`,
`set_socket 7` run without a fatal call, and the handle goes from invalid to valid
twice; it is 7 at the end. -/
theorem set_socket_after_close_makes_handle_valid_again :
    hasFatal (run attachCloseAttach (ctsSocket.fresh liveParent)) = false ∧
    validTransitions (statesOf (ctsSocket.fresh liveParent)
      (run attachCloseAttach (ctsSocket.fresh liveParent))) = 2 ∧
    (finalState (ctsSocket.fresh liveParent)
      (run attachCloseAttach (ctsSocket.fresh liveParent))).socket = 7 := by
  decide

/-! ## The timer -/

theorem timerCreateCount_append (a b : List Event) :
    timerCreateCount (a ++ b) = timerCreateCount a + timerCreateCount b := by
  simp [timerCreateCount, List.countP_append]

/-- One call: a timer is created only where none was stored, and the stored timer goes
away only through `shutdown`. -/
theorem step_timer_account (op : Op) (self : ctsSocket) :
    timerCreateCount (step op self).events + timerAbsent (step op self).state ≤
      timerAbsent self + (if op.isShutdown then 1 else 0) := by
  cases op with
  | set_socket s =>
    by_cases h : self.socket = INVALID_SOCKET <;>
      simp [step, Step.erase, ctsSocket.set_socket, ctFatalCondition, timerCreateCount,
        timerAbsent, Op.isShutdown, h]
  | close_socket =>
    by_cases h : self.socket = INVALID_SOCKET <;>
      simp [step, Step.erase, ctsSocket.close_socket, timerCreateCount, timerAbsent,
        Op.isShutdown, h]
  | thread_pool ok =>
    by_cases h : self.socket = INVALID_SOCKET <;> cases hi : self.tp_iocp <;> cases ok <;>
      simp [step, Step.erase, ctsSocket.thread_pool, ctThreadIocp.construct,
        timerCreateCount, timerAbsent, Op.isShutdown, h, hi]
  | complete_state e =>
    by_cases h0 : self.io_count = 0 <;>
      cases hp : self.parent.lock <;> cases hq : self.pattern <;>
      simp [step, Step.erase, ctsSocket.complete_state, ctFatalCondition, ctMemoryGuardRead,
        timerCreateCount, timerAbsent, Op.isShutdown, h0, hp, hq]
  | io_pattern =>
    simp [step, Step.erase, ctsSocket.io_pattern, timerCreateCount, timerAbsent,
      Op.isShutdown]
  | set_io_pattern p =>
    simp [step, Step.erase, ctsSocket.set_io_pattern, timerCreateCount, timerAbsent,
      Op.isShutdown]
  | increment_io =>
    simp [step, Step.erase, ctsSocket.increment_io, timerCreateCount, timerAbsent,
      Op.isShutdown]
  | decrement_io =>
    by_cases hd : ctMemoryGuardDecrement self.io_count < 0 <;>
      simp [step, Step.erase, ctsSocket.decrement_io, ctFatalCondition, timerCreateCount,
        timerAbsent, Op.isShutdown, hd]
  | pended_io =>
    simp [step, Step.erase, ctsSocket.pended_io, timerCreateCount, timerAbsent,
      Op.isShutdown]
  | shutdown =>
    by_cases h : self.socket = INVALID_SOCKET <;> cases ht : self.tp_timer <;>
      simp [step, Step.erase, ctsSocket.shutdown, ctsSocket.close_socket, timerCreateCount,
        timerAbsent, Op.isShutdown, h, ht]
  | set_timer task func c k =>
    cases ht : self.tp_timer <;> cases c <;> cases k <;>
      simp [step, Step.erase, ctsSocket.set_timer, ctThreadpoolTimer.construct,
        ctThreadpoolTimer.schedule_singleton, timerCreateCount, timerAbsent,
        Op.isShutdown, ht]

theorem opCount_cons (p : Op → Bool) (op : Op) (ops : List Op) :
    opCount p (op :: ops) = opCount p ops + (if p op then 1 else 0) := by
  simp [opCount, List.countP_cons]

/-- Along a run, the timers created are at most one for the start, when no timer was
stored, and one for each `shutdown`. -/
theorem run_timer_account (ops : List Op) (self : ctsSocket) :
    timerCreateCount (allEvents (run ops self)) +
        timerAbsent (finalState self (run ops self)) ≤
      timerAbsent self + opCount Op.isShutdown ops := by
  induction ops generalizing self with
  | nil => simp [run_nil, allEvents_nil, finalState_nil, timerCreateCount, opCount]
  | cons op ops ih =>
    have hstep := step_timer_account op self
    rw [opCount_cons]
    by_cases hfat : (step op self).outcome = Outcome.fatal
    · rw [run_cons_fatal op ops self hfat, allEvents_cons, allEvents_nil, finalState_cons,
        finalState_nil, List.append_nil]
      omega
    · rw [run_cons_alive op ops self hfat, allEvents_cons, finalState_cons,
        timerCreateCount_append]
      have hrest := ih (step op self).state
      omega

/-- C9 (as amended): `set_timer` creates a timer only when none is stored, so at most one
timer is stored at a time; `shutdown` clears the stored reference, and a `set_timer` after
it creates a new timer. Along every run the number of timers created is at most one (when
none was stored at the start) plus the number of `shutdown` calls. -/
theorem timer_created_only_when_absent (ops : List Op) (self : ctsSocket) :
    timerCreateCount (allEvents (run ops self)) +
        timerAbsent (finalState self (run ops self)) ≤
      timerAbsent self + opCount Op.isShutdown ops ∧
    (∀ task func c k, self.tp_timer ≠ none →
      timerCreateCount (self.set_timer task func c k).events = 0 ∧
      (self.set_timer task func c k).state.tp_timer ≠ none) ∧
    (∀ task func c k, self.tp_timer = none →
      timerCreateCount (self.set_timer task func c k).events = (if c then 1 else 0)) ∧
    self.shutdown.state.tp_timer = none := by
  refine ⟨run_timer_account ops self, ?_, ?_, ?_⟩
  · intro task func c k ht
    cases hh : self.tp_timer with
    | none => exact absurd hh ht
    | some t =>
      cases k <;>
        simp [ctsSocket.set_timer, ctThreadpoolTimer.schedule_singleton, timerCreateCount, hh]
  · intro task func c k ht
    cases c <;> cases k <;>
      simp [ctsSocket.set_timer, ctThreadpoolTimer.construct,
        ctThreadpoolTimer.schedule_singleton, timerCreateCount, ht]
  · rw [shutdown_state]

/-- C9 (as amended), at a session that stores a timer: `set_timer` creates none. -/
theorem timer_created_only_when_absent_witness :
    timerCreateCount (sessionWithTimer.set_timer noDelayTask 1 true true).events = 0 ∧
    (sessionWithTimer.set_timer noDelayTask 1 true true).state.tp_timer ≠ none :=
  (timer_created_only_when_absent [] sessionWithTimer).2.1 noDelayTask 1 true true
    (by decide)

/-- C9 (as stated) fails: on a fresh session `set_timer`, `shutdown`, `set_timer` run
without a fatal call or an exception and create two timer objects. -/
theorem set_timer_after_shutdown_creates_second_timer :
    hasFatal (run scheduleShutdownSchedule (ctsSocket.fresh liveParent)) = false ∧
    (run scheduleShutdownSchedule (ctsSocket.fresh liveParent)).map (fun r => r.outcome) =
      [Outcome.returned Ret.unit, Outcome.returned Ret.unit, Outcome.returned Ret.unit] ∧
    timerCreateCount
      (allEvents (run scheduleShutdownSchedule (ctsSocket.fresh liveParent))) = 2 := by
  decide

/-! ## The critical section during shutdown -/

theorem shutdown_events (self : ctsSocket) :
    self.shutdown.events =
      Event.EnterCriticalSection ::
        ((if self.socket ≠ INVALID_SOCKET then [Event.closesocket self.socket] else []) ++
          [Event.LeaveCriticalSection, Event.tp_iocp_reset self.tp_iocp,
            Event.tp_timer_reset self.tp_timer]) := by
  by_cases h : self.socket = INVALID_SOCKET <;>
    simp [ctsSocket.shutdown, ctsSocket.close_socket, h]

/-- C10: in every `shutdown` the calling thread enters the critical section, closes the
handle when it is valid, and leaves the critical section; only then is the adapter
reference released, and after it the timer reference. Counting what the call itself
entered and left, the critical section is held when `closesocket` runs and is not held
when either release runs, nor when the call returns. -/
theorem shutdown_releases_outside_critical_section (self : ctsSocket) :
    self.shutdown.events =
      Event.EnterCriticalSection ::
        ((if self.socket ≠ INVALID_SOCKET then [Event.closesocket self.socket] else []) ++
          [Event.LeaveCriticalSection, Event.tp_iocp_reset self.tp_iocp,
            Event.tp_timer_reset self.tp_timer]) ∧
    (∀ k e, self.shutdown.events[k]? = some e → e.isRelease = true →
      lockDepth (self.shutdown.events.take k) = 0) ∧
    (∀ k e, self.shutdown.events[k]? = some e → e.isClose = true →
      lockDepth (self.shutdown.events.take k) = 1) ∧
    lockDepth self.shutdown.events = 0 := by
  refine ⟨shutdown_events self, ?_, ?_, ?_⟩
  · intro k e hk he
    rw [shutdown_events] at hk ⊢
    by_cases h : self.socket = INVALID_SOCKET
    · simp only [h, ne_eq, not_true_eq_false, if_false, List.nil_append] at hk ⊢
      rcases k with _ | _ | _ | _ | k <;> simp at hk <;> subst hk <;>
        simp [Event.isRelease] at he <;> simp [lockDepth]
    · simp only [h, ne_eq, not_false_eq_true, if_true, List.singleton_append] at hk ⊢
      rcases k with _ | _ | _ | _ | _ | k <;> simp at hk <;> subst hk <;>
        simp [Event.isRelease] at he <;> simp [lockDepth]
  · intro k e hk he
    rw [shutdown_events] at hk ⊢
    by_cases h : self.socket = INVALID_SOCKET
    · simp only [h, ne_eq, not_true_eq_false, if_false, List.nil_append] at hk ⊢
      rcases k with _ | _ | _ | _ | k <;> simp at hk <;> subst hk <;>
        simp [Event.isClose] at he
    · simp only [h, ne_eq, not_false_eq_true, if_true, List.singleton_append] at hk ⊢
      rcases k with _ | _ | _ | _ | _ | k <;> simp at hk <;> subst hk <;>
        simp [Event.isClose] at he
      simp [lockDepth]
  · rw [shutdown_events]
    by_cases h : self.socket = INVALID_SOCKET <;> simp [h, lockDepth]

/-- C10, at the session that holds handle 5: the adapter release is the fourth event of
`shutdown`, and the critical section is not held at that point. -/
theorem shutdown_releases_outside_critical_section_witness :
    lockDepth (sessionWithHandle.shutdown.events.take 3) = 0 :=
  (shutdown_releases_outside_critical_section sessionWithHandle).2.1 3
    (Event.tp_iocp_reset none) rfl rfl

end ctsTraffic

namespace ctsPerf

/-! ## The statistics row -/

theorem std_sort_sorted (data : List ULONGLONG) :
    (std_sort data).Sorted (fun a b => a ≤ b) :=
  List.sorted_insertionSort (fun a b : Nat => a ≤ b) data

theorem std_sort_perm (data : List ULONGLONG) : (std_sort data).Perm data :=
  List.perm_insertionSort (fun a b : Nat => a ≤ b) data

theorem std_sort_length (data : List ULONGLONG) : (std_sort data).length = data.length :=
  List.length_insertionSort (fun a b : Nat => a ≤ b) data

theorem std_sort_ne_nil (data : List ULONGLONG) (hne : data ≠ []) : std_sort data ≠ [] := by
  intro h
  have := std_sort_length data
  rw [h] at this
  exact hne (List.length_eq_zero.1 this.symm)

theorem head_mem_of_ne_nil (l : List ULONGLONG) (hne : l ≠ []) : l.head?.getD 0 ∈ l := by
  cases l with
  | nil => exact absurd rfl hne
  | cons a rest => simp

theorem getLast_mem_of_ne_nil (l : List ULONGLONG) (hne : l ≠ []) :
    l.getLast?.getD 0 ∈ l := by
  rw [List.getLast?_eq_getLast l hne]
  exact List.getLast_mem hne

theorem head_le_of_sorted (l : List ULONGLONG) (hs : l.Sorted (fun a b => a ≤ b)) :
    ∀ x ∈ l, l.head?.getD 0 ≤ x := by
  cases l with
  | nil => simp
  | cons a rest =>
    intro x hx
    rcases List.mem_cons.1 hx with h | h
    · simp [h]
    · simpa using List.rel_of_sorted_cons hs x h

theorem le_getLast_of_sorted (l : List ULONGLONG) (hs : l.Sorted (fun a b => a ≤ b)) :
    ∀ x ∈ l, x ≤ l.getLast?.getD 0 := by
  induction l with
  | nil => simp
  | cons a rest ih =>
    intro x hx
    cases rest with
    | nil =>
      have : x = a := by simpa using hx
      simp [this]
    | cons b rest2 =>
      have hrest := ih hs.of_cons
      rw [List.getLast?_cons_cons]
      rcases List.mem_cons.1 hx with h | h
      · have hab : a ≤ b := List.rel_of_sorted_cons hs b (List.mem_cons_self _ _)
        exact h ▸ le_trans hab (hrest b (List.mem_cons_self _ _))
      · exact hrest x h

/-- The text built by `write_details` has the record shape of the specification. -/
theorem formatted_data_eq_specRecord {D : Type}
    (std iqr : List ULONGLONG → D × D × D) (format_f : D → String)
    (data : List ULONGLONG) :
    ctsWriteDetails.formatted_data std iqr format_f data =
      specRecord format_f (static_cast_DWORD data.length) (data.head?.getD 0)
        (data.getLast?.getD 0) (std data) (iqr data) := by
  simp [ctsWriteDetails.formatted_data, specRecord, details.write_ULONG,
    details.write_ULONGLONG_2, details.write_double_3, format_unsigned, String.join,
    String.append_assoc]

theorem write_details_nonempty {D : Type}
    (std iqr : List ULONGLONG → D × D × D) (format_f : D → String)
    (cls ctr : String) (data : List ULONGLONG) (write_ok : Bool) (hne : data ≠ []) :
    ctsWriteDetails.write_details std iqr format_f cls ctr data write_ok =
      if write_ok then
        { data := std_sort data
          events := [FileEvent.start_row cls ctr,
            FileEvent.WriteFile
              (ctsWriteDetails.formatted_data std iqr format_f (std_sort data))
              (static_cast_DWORD
                ((ctsWriteDetails.formatted_data std iqr format_f (std_sort data)).length * 2)),
            FileEvent.end_row]
          threw := false }
      else
        { data := std_sort data
          events := [FileEvent.start_row cls ctr]
          threw := true } := by
  have hemp : data.isEmpty = false := by
    cases data with
    | nil => exact absurd rfl hne
    | cons a rest => rfl
  simp [ctsWriteDetails.write_details, hemp]

/-- C11 (as amended): for every non-empty vector of fewer than 2^32 samples, when
`WriteFile` succeeds, `write_details` puts into the file the row-start marker for the
class and counter name, then one buffer, then the row-end marker. The buffer is nine
comma-prefixed fields in the order TotalCount, Min, Max, -1Std, Mean, +1Std, -1IQR,
Median, +1IQR: the number of samples, a sample that no sample is below, a sample that no
sample is above, then the standard-deviation triple and the interquartile triple of the
sorted samples. The vector is left sorted ascending, a rearrangement of the input. When
`WriteFile` fails the call throws after the row-start marker, and neither the fields nor
the row-end marker are written. -/
theorem write_details_writes_record {D : Type}
    (std iqr : List ULONGLONG → D × D × D) (format_f : D → String)
    (cls ctr : String) (data : List ULONGLONG) (hne : data ≠ [])
    (hsize : data.length < 4294967296) :
    (ctsWriteDetails.write_details std iqr format_f cls ctr data true).threw = false ∧
    (ctsWriteDetails.write_details std iqr format_f cls ctr data true).data = std_sort data ∧
    (std_sort data).Sorted (fun a b => a ≤ b) ∧
    (std_sort data).Perm data ∧
    (ctsWriteDetails.write_details std iqr format_f cls ctr data true).events =
      [FileEvent.start_row cls ctr,
        FileEvent.WriteFile
          (specRecord format_f data.length ((std_sort data).head?.getD 0)
            ((std_sort data).getLast?.getD 0) (std (std_sort data)) (iqr (std_sort data)))
          (static_cast_DWORD
            ((specRecord format_f data.length ((std_sort data).head?.getD 0)
              ((std_sort data).getLast?.getD 0) (std (std_sort data))
              (iqr (std_sort data))).length * 2)),
        FileEvent.end_row] ∧
    (std_sort data).head?.getD 0 ∈ data ∧
    (∀ x ∈ data, (std_sort data).head?.getD 0 ≤ x) ∧
    (std_sort data).getLast?.getD 0 ∈ data ∧
    (∀ x ∈ data, x ≤ (std_sort data).getLast?.getD 0) ∧
    (ctsWriteDetails.write_details std iqr format_f cls ctr data false).threw = true ∧
    (ctsWriteDetails.write_details std iqr format_f cls ctr data false).events =
      [FileEvent.start_row cls ctr] := by
  have hcount : static_cast_DWORD (std_sort data).length = data.length := by
    rw [std_sort_length]
    exact Nat.mod_eq_of_lt hsize
  have hsorted := std_sort_sorted data
  have hperm := std_sort_perm data
  have hnn := std_sort_ne_nil data hne
  refine ⟨?_, ?_, hsorted, hperm, ?_, ?_, ?_, ?_, ?_, ?_, ?_⟩
  · rw [write_details_nonempty std iqr format_f cls ctr data true hne]; rfl
  · rw [write_details_nonempty std iqr format_f cls ctr data true hne]; rfl
  · rw [write_details_nonempty std iqr format_f cls ctr data true hne,
      formatted_data_eq_specRecord, hcount]
    rfl
  · exact hperm.mem_iff.1 (head_mem_of_ne_nil _ hnn)
  · intro x hx
    exact head_le_of_sorted _ hsorted x (hperm.mem_iff.2 hx)
  · exact hperm.mem_iff.1 (getLast_mem_of_ne_nil _ hnn)
  · intro x hx
    exact le_getLast_of_sorted _ hsorted x (hperm.mem_iff.2 hx)
  · rw [write_details_nonempty std iqr format_f cls ctr data false hne]; rfl
  · rw [write_details_nonempty std iqr format_f cls ctr data false hne]; rfl

/-- C11 (as amended), at the samples 1, 2, 3, 4, 5 of the counter Latency, with the name
of its column standing for each statistic: the row carries count 5, min 1, max 5 and the
six statistics in the fixed order. -/
theorem write_details_writes_record_witness :
    (ctsWriteDetails.write_details columnNamesStd columnNamesIqr id "ctsTraffic" "Latency"
      latencySamples true).events =
      [FileEvent.start_row "ctsTraffic" "Latency",
        FileEvent.WriteFile ",5,1,5,-1Std,Mean,+1Std,-1IQR,Median,+1IQR" 84,
        FileEvent.end_row] :=
  (write_details_writes_record columnNamesStd columnNamesIqr id "ctsTraffic" "Latency"
    latencySamples (by decide) (by decide)).2.2.2.2.1

theorem std_sort_replicate (n : Nat) (a : ULONGLONG) :
    std_sort (List.replicate n a) = List.replicate n a := by
  induction n with
  | zero => rfl
  | succ n ih =>
    rw [List.replicate_succ]
    show List.orderedInsert (fun a b : Nat => a ≤ b) a (std_sort (List.replicate n a)) = _
    rw [ih]
    cases n with
    | zero => rfl
    | succ m =>
      rw [List.replicate_succ]
      simp [List.orderedInsert]

/-- On `n > 0` equal samples the count field is `n` cut to 32 bits. -/
theorem write_details_replicate {D : Type}
    (std iqr : List ULONGLONG → D × D × D) (format_f : D → String)
    (cls ctr : String) (n : Nat) (a : ULONGLONG) (hn : 0 < n) :
    (ctsWriteDetails.write_details std iqr format_f cls ctr (List.replicate n a) true).events =
      [FileEvent.start_row cls ctr,
        FileEvent.WriteFile
          (specRecord format_f (static_cast_DWORD n) a a (std (List.replicate n a))
            (iqr (List.replicate n a)))
          (static_cast_DWORD
            ((specRecord format_f (static_cast_DWORD n) a a (std (List.replicate n a))
              (iqr (List.replicate n a))).length * 2)),
        FileEvent.end_row] := by
  have hne : List.replicate n a ≠ [] := by
    intro h
    have hl := congrArg List.length h
    rw [List.length_replicate] at hl
    exact absurd hl (by simpa using Nat.pos_iff_ne_zero.1 hn)
  have hn0 : n ≠ 0 := Nat.pos_iff_ne_zero.1 hn
  rw [write_details_nonempty std iqr format_f cls ctr _ true hne,
    formatted_data_eq_specRecord, std_sort_replicate, List.length_replicate,
    List.head?_replicate, List.getLast?_replicate, if_neg hn0]
  rfl

/-- C11 (as stated) fails: the count field is the size cast to a 32-bit `DWORD`, so for a
vector of 2^32 samples (all zero) the row carries count 0; and when `WriteFile` fails, for
the samples 1, 2, 3, 4, 5, the call throws after the row-start marker with no field and no
row-end marker written. -/
theorem write_details_count_is_32_bit :
    (ctsWriteDetails.write_details columnNamesStd columnNamesIqr id "ctsTraffic" "Latency"
      (List.replicate 4294967296 0) true).events =
      [FileEvent.start_row "ctsTraffic" "Latency",
        FileEvent.WriteFile ",0,0,0,-1Std,Mean,+1Std,-1IQR,Median,+1IQR" 84,
        FileEvent.end_row] ∧
    (ctsWriteDetails.write_details columnNamesStd columnNamesIqr id "ctsTraffic" "Latency"
      latencySamples false).events = [FileEvent.start_row "ctsTraffic" "Latency"] ∧
    (ctsWriteDetails.write_details columnNamesStd columnNamesIqr id "ctsTraffic" "Latency"
      latencySamples false).threw = true :=
  ⟨write_details_replicate columnNamesStd columnNamesIqr id "ctsTraffic" "Latency"
      4294967296 0 (by decide),
    rfl, rfl⟩

end ctsPerf
